import Mathlib

/-!
# OMAP4 ALSA module (`modules/alsa/alsa_omap4.cpp`)

A shallow embedding of the routing module: the static handle table, the
device-name and direction resolution, hardware and software parameter
negotiation, the mixer control strategies and the `s_init` / `s_open` /
`s_close` / `s_route` entry points.

Conventions of the embedding.

* Every function that talks to the outside world takes a `World`: the answers
  the ALSA library, the mixer and the optional voice modem give at each call
  site.  The answers are arbitrary, so a statement quantified over `World`
  holds for every behaviour of the collaborators.
* The calls a function makes are recorded, in program order, in a list of
  `Call`s returned next to its result.  Logging is not recorded.
* `uint32_t`, `unsigned int` and `snd_pcm_uframes_t` values are natural
  numbers; the module is built for 32-bit ARM, so arithmetic that can wrap is
  reduced modulo `2 ^ 32` where it occurs.
* The transport pointer `snd_pcm_t *` is an `Option Nat`; `none` is the null
  pointer.
-/

namespace Omap4

/-! ## Platform constants

The module includes `AudioHardwareALSA.h`, `media/AudioRecord.h` and
`utils/Errors.h`, none of which belongs to the module.  The values below are
the ones of the Android 2.1 platform headers the file is written against: its
comment above `DEVICE_OUT_FM_HEADPHONE` says that Eclair 2.1 removed the board
specific outputs, which is why the module defines the two FM bits itself, in
the gap the platform leaves between `DEVICE_OUT_AUX_DIGITAL` (`0x400`) and
`DEVICE_OUT_DEFAULT` (`0x8000`). -/

abbrev status_t := Int

def NO_ERROR : status_t := 0
/-- The status `NO_INIT`, which `utils/Errors.h` defines as `-ENODEV`. -/
def NO_INIT : status_t := -19

/-! The enumeration `AudioSystem::audio_devices` of `media/AudioSystem.h`:
output devices in the low half-word, input devices in the high one. -/
namespace AudioSystem

def DEVICE_OUT_EARPIECE : Nat := 0x1
def DEVICE_OUT_SPEAKER : Nat := 0x2
def DEVICE_OUT_WIRED_HEADSET : Nat := 0x4
def DEVICE_OUT_WIRED_HEADPHONE : Nat := 0x8
def DEVICE_OUT_BLUETOOTH_SCO : Nat := 0x10
def DEVICE_OUT_BLUETOOTH_SCO_HEADSET : Nat := 0x20
def DEVICE_OUT_BLUETOOTH_SCO_CARKIT : Nat := 0x40
def DEVICE_OUT_BLUETOOTH_A2DP : Nat := 0x80
def DEVICE_OUT_BLUETOOTH_A2DP_HEADPHONES : Nat := 0x100
def DEVICE_OUT_BLUETOOTH_A2DP_SPEAKER : Nat := 0x200
def DEVICE_OUT_AUX_DIGITAL : Nat := 0x400
def DEVICE_OUT_DEFAULT : Nat := 0x8000
def DEVICE_OUT_ALL : Nat :=
  DEVICE_OUT_EARPIECE ||| DEVICE_OUT_SPEAKER ||| DEVICE_OUT_WIRED_HEADSET |||
  DEVICE_OUT_WIRED_HEADPHONE ||| DEVICE_OUT_BLUETOOTH_SCO |||
  DEVICE_OUT_BLUETOOTH_SCO_HEADSET ||| DEVICE_OUT_BLUETOOTH_SCO_CARKIT |||
  DEVICE_OUT_BLUETOOTH_A2DP ||| DEVICE_OUT_BLUETOOTH_A2DP_HEADPHONES |||
  DEVICE_OUT_BLUETOOTH_A2DP_SPEAKER ||| DEVICE_OUT_AUX_DIGITAL ||| DEVICE_OUT_DEFAULT

def DEVICE_IN_COMMUNICATION : Nat := 0x10000
def DEVICE_IN_AMBIENT : Nat := 0x20000
def DEVICE_IN_BUILTIN_MIC : Nat := 0x40000
def DEVICE_IN_BLUETOOTH_SCO_HEADSET : Nat := 0x80000
def DEVICE_IN_WIRED_HEADSET : Nat := 0x100000
def DEVICE_IN_AUX_DIGITAL : Nat := 0x200000
def DEVICE_IN_VOICE_CALL : Nat := 0x400000
def DEVICE_IN_BACK_MIC : Nat := 0x800000
def DEVICE_IN_DEFAULT : Nat := 0x80000000
def DEVICE_IN_ALL : Nat :=
  DEVICE_IN_COMMUNICATION ||| DEVICE_IN_AMBIENT ||| DEVICE_IN_BUILTIN_MIC |||
  DEVICE_IN_BLUETOOTH_SCO_HEADSET ||| DEVICE_IN_WIRED_HEADSET |||
  DEVICE_IN_AUX_DIGITAL ||| DEVICE_IN_VOICE_CALL ||| DEVICE_IN_BACK_MIC |||
  DEVICE_IN_DEFAULT

end AudioSystem

namespace AudioRecord
def DEFAULT_SAMPLE_RATE : Nat := 8000
end AudioRecord

/-- The enumerator `SND_PCM_FORMAT_S16_LE` of `alsa/pcm.h`. -/
def SND_PCM_FORMAT_S16_LE : Int := 2

/-- Width of `unsigned int`, `size_t` and `snd_pcm_uframes_t` on the target. -/
def WORD_BITS : Nat := 32

/-- The C operator `~` on a machine word of `WORD_BITS` bits. -/
def wordNot (x : Nat) : Nat := (2 ^ WORD_BITS - 1) ^^^ (x % 2 ^ WORD_BITS)

/-! ## Constants of the module -/

def MM_DEFAULT_DEVICE : String := "plughw:0,0"
def BLUETOOTH_SCO_DEVICE : String := "hw:0,2"
def FM_TRANSMIT_DEVICE : String := "hw:0,2"
def HDMI_DEVICE : String := "plughw:0,7"

def ALSA_DEFAULT_SAMPLE_RATE : Nat := 44100
def DEFAULT_SAMPLE_RATE : Nat := ALSA_DEFAULT_SAMPLE_RATE

def DEVICE_OUT_FM_HEADPHONE : Nat := 0x800
def DEVICE_OUT_FM_SPEAKER : Nat := 0x1000

def OMAP4_OUT_SCO : Nat :=
  AudioSystem.DEVICE_OUT_BLUETOOTH_SCO |||
  AudioSystem.DEVICE_OUT_BLUETOOTH_SCO_HEADSET |||
  AudioSystem.DEVICE_OUT_BLUETOOTH_SCO_CARKIT

def OMAP4_OUT_FM : Nat := DEVICE_OUT_FM_HEADPHONE ||| DEVICE_OUT_FM_SPEAKER

def OMAP4_OUT_HDMI : Nat := AudioSystem.DEVICE_OUT_AUX_DIGITAL

def OMAP4_OUT_DEFAULT : Nat :=
  AudioSystem.DEVICE_OUT_ALL &&& wordNot OMAP4_OUT_SCO &&& wordNot OMAP4_OUT_FM &&&
    wordNot OMAP4_OUT_HDMI

def OMAP4_IN_SCO : Nat := AudioSystem.DEVICE_IN_BLUETOOTH_SCO_HEADSET

def OMAP4_IN_DEFAULT : Nat := AudioSystem.DEVICE_IN_ALL &&& wordNot OMAP4_IN_SCO

/-! ## Data model -/

/-- The control strategies a handle's `modPrivate` can point to. -/
inductive AlsaControlSet where
  | setScoControls
  | setFmControls
  | setHDMIControls
  | setDefaultControls
  deriving DecidableEq

inductive snd_pcm_stream_t where
  | SND_PCM_STREAM_PLAYBACK
  | SND_PCM_STREAM_CAPTURE
  deriving DecidableEq

/-- The record `alsa_handle_t` of `AudioHardwareALSA.h`, with the fields the
table `_defaults` initialises. -/
structure alsa_handle_t where
  module : Nat
  devices : Nat
  curDev : Nat
  curMode : Int
  handle : Option Nat
  format : Int
  channels : Nat
  sampleRate : Nat
  latency : Nat
  bufferSize : Nat
  modPrivate : AlsaControlSet
  deriving DecidableEq

/-- One call made to a collaborator: the mixer (`ALSAControl::set`, in its
numeric and string overloads; `index` is `none` when the call site leaves the
third argument to its default), the voice modem, or the ALSA PCM library. -/
inductive Call where
  | control_set (name : String) (value : Nat) (index : Option Int)
  | control_set_str (name : String) (value : String)
  | voiceCallControls (devices : Nat) (mode : Int)
  | alsaControlSet (set : AlsaControlSet) (devices : Nat) (mode : Int)
  | snd_pcm_drain (pcm : Nat)
  | snd_pcm_close (pcm : Nat)
  | snd_pcm_open (name : String) (stream : snd_pcm_stream_t) (flags : Nat)
  | snd_pcm_hw_params_malloc
  | LOG_ALWAYS_FATAL
  | snd_pcm_hw_params_any (pcm : Option Nat)
  | snd_pcm_hw_params_set_access (pcm : Option Nat)
  | snd_pcm_hw_params_set_format (pcm : Option Nat) (format : Int)
  | snd_pcm_hw_params_set_channels (pcm : Option Nat) (channels : Nat)
  | snd_pcm_hw_params_set_rate_near (pcm : Option Nat) (rate : Nat)
  | snd_pcm_hw_params_set_buffer_size_near (pcm : Option Nat) (frames : Nat)
  | snd_pcm_hw_params_set_buffer_time_near (pcm : Option Nat) (usec : Nat)
  | snd_pcm_hw_params_set_period_time_near (pcm : Option Nat) (usec : Nat)
  | snd_pcm_hw_params_get_period_size
  | snd_pcm_hw_params_get_buffer_size
  | snd_pcm_hw_params_get_buffer_time
  | snd_pcm_hw_params (pcm : Option Nat)
  | snd_pcm_hw_params_free
  | snd_pcm_sw_params_malloc
  | snd_pcm_sw_params_current (pcm : Option Nat)
  | snd_pcm_get_params (pcm : Option Nat)
  | snd_pcm_sw_params_set_start_threshold (pcm : Option Nat) (frames : Nat)
  | snd_pcm_sw_params_set_stop_threshold (pcm : Option Nat) (frames : Nat)
  | snd_pcm_sw_params_set_avail_min (pcm : Option Nat) (frames : Nat)
  | snd_pcm_sw_params (pcm : Option Nat)
  | snd_pcm_sw_params_free
  deriving DecidableEq

/-- What one function of the module hands back: its status, the handle as it
leaves it, and the calls it made, in order. -/
structure Ret where
  status : status_t
  handle : alsa_handle_t
  calls : List Call
  deriving DecidableEq

/-- The answers of the collaborators, one field per call site.  A call with an
in/out argument answers with its status and the value the argument holds after
the call.  `snd_pcm_open` answers with its status and the transport pointer it
stores when it succeeds; a failing `snd_pcm_open` stores nothing.
`AUDIO_MODEM_TI` tells whether the module is built with the voice modem. -/
structure World where
  AUDIO_MODEM_TI : Bool
  voiceCallControls : Nat → Int → status_t
  control_set : String → Nat → Option Int → status_t
  control_set_str : String → String → status_t
  snd_pcm_drain : Nat → Int
  snd_pcm_close : Nat → Int
  snd_pcm_open : String → snd_pcm_stream_t → Nat → Int × Nat
  snd_pcm_hw_params_malloc : Int
  snd_pcm_hw_params_any : Int
  snd_pcm_hw_params_set_access : Int
  snd_pcm_hw_params_set_format : Int
  snd_pcm_hw_params_set_channels : Int
  snd_pcm_hw_params_set_rate_near : Nat → Int × Nat
  snd_pcm_hw_params_set_buffer_size_near : Nat → Int × Nat
  snd_pcm_hw_params_set_buffer_time_near : Nat → Int × Nat
  snd_pcm_hw_params_set_period_time_near : Nat → Int × Nat
  snd_pcm_hw_params_get_period_size : Int × Nat
  snd_pcm_hw_params_set_buffer_size_near_2 : Nat → Int × Nat
  snd_pcm_hw_params_get_buffer_size : Int × Nat
  snd_pcm_hw_params_get_buffer_time : Int × Nat
  snd_pcm_hw_params : Int
  snd_pcm_sw_params_malloc : Int
  snd_pcm_sw_params_current : Int
  snd_pcm_get_params : Nat × Nat
  snd_pcm_sw_params_set_start_threshold : Nat → Int
  snd_pcm_sw_params_set_stop_threshold : Nat → Int
  snd_pcm_sw_params_set_avail_min : Nat → Int
  snd_pcm_sw_params : Int

/-! ## The static table `_defaults` -/

def _defaults : List alsa_handle_t := [
  { module := 0, devices := OMAP4_OUT_SCO, curDev := 0, curMode := 0, handle := none,
    format := SND_PCM_FORMAT_S16_LE, channels := 2, sampleRate := DEFAULT_SAMPLE_RATE,
    latency := 200000, bufferSize := DEFAULT_SAMPLE_RATE / 5,
    modPrivate := AlsaControlSet.setScoControls },
  { module := 0, devices := OMAP4_OUT_FM, curDev := 0, curMode := 0, handle := none,
    format := SND_PCM_FORMAT_S16_LE, channels := 2, sampleRate := DEFAULT_SAMPLE_RATE,
    latency := 200000, bufferSize := DEFAULT_SAMPLE_RATE / 5,
    modPrivate := AlsaControlSet.setFmControls },
  { module := 0, devices := OMAP4_OUT_HDMI, curDev := 0, curMode := 0, handle := none,
    format := SND_PCM_FORMAT_S16_LE, channels := 2, sampleRate := DEFAULT_SAMPLE_RATE,
    latency := 200000, bufferSize := DEFAULT_SAMPLE_RATE / 5,
    modPrivate := AlsaControlSet.setHDMIControls },
  { module := 0, devices := OMAP4_OUT_DEFAULT, curDev := 0, curMode := 0, handle := none,
    format := SND_PCM_FORMAT_S16_LE, channels := 2, sampleRate := DEFAULT_SAMPLE_RATE,
    latency := 200000, bufferSize := DEFAULT_SAMPLE_RATE / 10,
    modPrivate := AlsaControlSet.setDefaultControls },
  { module := 0, devices := OMAP4_IN_SCO, curDev := 0, curMode := 0, handle := none,
    format := SND_PCM_FORMAT_S16_LE, channels := 1,
    sampleRate := AudioRecord.DEFAULT_SAMPLE_RATE,
    latency := 250000, bufferSize := 2048,
    modPrivate := AlsaControlSet.setScoControls },
  { module := 0, devices := OMAP4_IN_DEFAULT, curDev := 0, curMode := 0, handle := none,
    format := SND_PCM_FORMAT_S16_LE, channels := 1,
    sampleRate := AudioRecord.DEFAULT_SAMPLE_RATE,
    latency := 250000, bufferSize := 2048,
    modPrivate := AlsaControlSet.setDefaultControls } ]

/-! ## Name and direction resolution -/

def deviceName (_handle : alsa_handle_t) (device : Nat) (_mode : Int) : String :=
  if device &&& OMAP4_OUT_SCO ≠ 0 ∨ device &&& OMAP4_IN_SCO ≠ 0 then BLUETOOTH_SCO_DEVICE
  else if device &&& OMAP4_OUT_FM ≠ 0 then FM_TRANSMIT_DEVICE
  else if device &&& OMAP4_OUT_HDMI ≠ 0 then HDMI_DEVICE
  else MM_DEFAULT_DEVICE

def direction (handle : alsa_handle_t) : snd_pcm_stream_t :=
  if handle.devices &&& AudioSystem.DEVICE_OUT_ALL ≠ 0 then
    snd_pcm_stream_t.SND_PCM_STREAM_PLAYBACK
  else snd_pcm_stream_t.SND_PCM_STREAM_CAPTURE

/-! ## Hardware parameters -/

/-- The label `done:` of `setHardwareParams`: free the parameter set, return `err`. -/
def hwDone (err : status_t) (handle : alsa_handle_t) (cs : List Call) : Ret :=
  ⟨err, handle, cs ++ [Call.snd_pcm_hw_params_free]⟩

/-- The tail of `setHardwareParams` after the latency branches: store the
negotiated sizes in the handle, then commit. -/
def hwCommit (w : World) (handle : alsa_handle_t) (bufferSize latency : Nat)
    (cs : List Call) : Ret :=
  let handle := { handle with bufferSize := bufferSize, latency := latency }
  let err := w.snd_pcm_hw_params
  hwDone err handle (cs ++ [Call.snd_pcm_hw_params handle.handle])

/-- The branch of `setHardwareParams` taken when the buffer-time request failed:
set the period time instead. -/
def hwPeriodFallback (w : World) (handle : alsa_handle_t) (latency : Nat)
    (cs : List Call) : Ret :=
  let pcm := handle.handle
  let periodTime := latency / 4
  let err := (w.snd_pcm_hw_params_set_period_time_near periodTime).1
  let cs := cs ++ [Call.snd_pcm_hw_params_set_period_time_near pcm periodTime]
  if err < 0 then hwDone err handle cs else
  let err := w.snd_pcm_hw_params_get_period_size.1
  let periodSize := w.snd_pcm_hw_params_get_period_size.2
  let cs := cs ++ [Call.snd_pcm_hw_params_get_period_size]
  if err < 0 then hwDone err handle cs else
  let bufferSize := (periodSize * 4) % 2 ^ WORD_BITS
  let bufferSize := if bufferSize < handle.bufferSize then handle.bufferSize else bufferSize
  let err := (w.snd_pcm_hw_params_set_buffer_size_near_2 bufferSize).1
  let cs := cs ++ [Call.snd_pcm_hw_params_set_buffer_size_near pcm bufferSize]
  let bufferSize := (w.snd_pcm_hw_params_set_buffer_size_near_2 bufferSize).2
  if err < 0 then hwDone err handle cs else
  hwCommit w handle bufferSize latency cs

/-- The branch of `setHardwareParams` taken when the buffer-time request
succeeded: read the sizes back and derive the period time. -/
def hwBufferTimeOk (w : World) (handle : alsa_handle_t) (cs : List Call) : Ret :=
  let pcm := handle.handle
  let err := w.snd_pcm_hw_params_get_buffer_size.1
  let bufferSize := w.snd_pcm_hw_params_get_buffer_size.2
  let cs := cs ++ [Call.snd_pcm_hw_params_get_buffer_size]
  if err < 0 then hwDone err handle cs else
  let err := w.snd_pcm_hw_params_get_buffer_time.1
  let latency := w.snd_pcm_hw_params_get_buffer_time.2
  let cs := cs ++ [Call.snd_pcm_hw_params_get_buffer_time]
  if err < 0 then hwDone err handle cs else
  let periodTime := latency / 4
  let err := (w.snd_pcm_hw_params_set_period_time_near periodTime).1
  let cs := cs ++ [Call.snd_pcm_hw_params_set_period_time_near pcm periodTime]
  if err < 0 then hwDone err handle cs else
  hwCommit w handle bufferSize latency cs

def setHardwareParams (w : World) (handle : alsa_handle_t) : Ret :=
  let pcm := handle.handle
  let bufferSize := handle.bufferSize
  let requestedRate := handle.sampleRate
  let latency := handle.latency
  if w.snd_pcm_hw_params_malloc < 0 then
    ⟨NO_INIT, handle, [Call.snd_pcm_hw_params_malloc, Call.LOG_ALWAYS_FATAL]⟩
  else
  let err := w.snd_pcm_hw_params_any
  let cs := [Call.snd_pcm_hw_params_malloc, Call.snd_pcm_hw_params_any pcm]
  if err < 0 then hwDone err handle cs else
  let err := w.snd_pcm_hw_params_set_access
  let cs := cs ++ [Call.snd_pcm_hw_params_set_access pcm]
  if err < 0 then hwDone err handle cs else
  let err := w.snd_pcm_hw_params_set_format
  let cs := cs ++ [Call.snd_pcm_hw_params_set_format pcm handle.format]
  if err < 0 then hwDone err handle cs else
  let err := w.snd_pcm_hw_params_set_channels
  let cs := cs ++ [Call.snd_pcm_hw_params_set_channels pcm handle.channels]
  if err < 0 then hwDone err handle cs else
  -- a failing rate request is only logged
  let cs := cs ++ [Call.snd_pcm_hw_params_set_rate_near pcm requestedRate]
  let err := (w.snd_pcm_hw_params_set_buffer_size_near bufferSize).1
  let cs := cs ++ [Call.snd_pcm_hw_params_set_buffer_size_near pcm bufferSize]
  if err < 0 then hwDone err handle cs else
  let err := (w.snd_pcm_hw_params_set_buffer_time_near latency).1
  let cs := cs ++ [Call.snd_pcm_hw_params_set_buffer_time_near pcm latency]
  let latency := (w.snd_pcm_hw_params_set_buffer_time_near latency).2
  if err < 0 then hwPeriodFallback w handle latency cs
  else hwBufferTimeOk w handle cs

/-! ## Software parameters -/

/-- The label `done:` of `setSoftwareParams`. -/
def swDone (err : status_t) (handle : alsa_handle_t) (cs : List Call) : Ret :=
  ⟨err, handle, cs ++ [Call.snd_pcm_sw_params_free]⟩

/-- The start threshold `setSoftwareParams` computes from the handle's device
mask and the buffer size read back (`bufferSize - 1` on a machine word). -/
def startThreshold (handle : alsa_handle_t) (bufferSize : Nat) : Nat :=
  if handle.devices &&& AudioSystem.DEVICE_OUT_ALL ≠ 0 then
    (bufferSize + (2 ^ WORD_BITS - 1)) % 2 ^ WORD_BITS
  else 1

/-- The stop threshold `setSoftwareParams` computes: `bufferSize` in both branches. -/
def stopThreshold (handle : alsa_handle_t) (bufferSize : Nat) : Nat :=
  if handle.devices &&& AudioSystem.DEVICE_OUT_ALL ≠ 0 then bufferSize else bufferSize

def setSoftwareParams (w : World) (handle : alsa_handle_t) : Ret :=
  let pcm := handle.handle
  if w.snd_pcm_sw_params_malloc < 0 then
    ⟨NO_INIT, handle, [Call.snd_pcm_sw_params_malloc, Call.LOG_ALWAYS_FATAL]⟩
  else
  let err := w.snd_pcm_sw_params_current
  let cs := [Call.snd_pcm_sw_params_malloc, Call.snd_pcm_sw_params_current pcm]
  if err < 0 then swDone err handle cs else
  let bufferSize := w.snd_pcm_get_params.1
  let periodSize := w.snd_pcm_get_params.2
  let cs := cs ++ [Call.snd_pcm_get_params pcm]
  let startThreshold := startThreshold handle bufferSize
  let stopThreshold := stopThreshold handle bufferSize
  let err := w.snd_pcm_sw_params_set_start_threshold startThreshold
  let cs := cs ++ [Call.snd_pcm_sw_params_set_start_threshold pcm startThreshold]
  if err < 0 then swDone err handle cs else
  let err := w.snd_pcm_sw_params_set_stop_threshold stopThreshold
  let cs := cs ++ [Call.snd_pcm_sw_params_set_stop_threshold pcm stopThreshold]
  if err < 0 then swDone err handle cs else
  let err := w.snd_pcm_sw_params_set_avail_min periodSize
  let cs := cs ++ [Call.snd_pcm_sw_params_set_avail_min pcm periodSize]
  if err < 0 then swDone err handle cs else
  let err := w.snd_pcm_sw_params
  swDone err handle (cs ++ [Call.snd_pcm_sw_params pcm])

/-! ## Control strategies -/

/-- The status `control.set(...)` returns for a recorded mixer call. -/
def ALSAControl.set (w : World) : Call → status_t
  | Call.control_set name value index => w.control_set name value index
  | Call.control_set_str name value => w.control_set_str name value
  | _ => NO_ERROR

/-- A run of consecutive `control.set(...)` statements: each one is issued in
turn and answers with a status. -/
def applyControls (w : World) (cs : List Call) : List status_t × List Call :=
  (cs.map (ALSAControl.set w), cs)

def setScoControls (_devices : Nat) (_mode : Int) : List Call := []

def setFmControls (_devices : Nat) (_mode : Int) : List Call := []

def setHDMIControls (_devices : Nat) (_mode : Int) : List Call := []

/-- The speaker block of `setDefaultControls`. -/
def speakerControls (devices : Nat) : List Call :=
  if devices &&& AudioSystem.DEVICE_OUT_SPEAKER ≠ 0 then
    [ Call.control_set "DL2 Media Playback Volume" 118 none,
      Call.control_set "DL2 Tones Playback Volume" 118 none,
      Call.control_set "DL2 Voice Playback Volume" 118 none,
      Call.control_set_str "HF Left Playback" "HF DAC",
      Call.control_set_str "HF Right Playback" "HF DAC",
      Call.control_set "Handsfree Playback Volume" 29 none ]
  else
    [ Call.control_set "DL2 Media Playback Volume" 0 (some (-1)),
      Call.control_set "DL2 Tones Playback Volume" 0 (some (-1)),
      Call.control_set "DL2 Voice Playback Volume" 0 (some (-1)),
      Call.control_set_str "HF Left Playback" "Off",
      Call.control_set_str "HF Right Playback" "Off",
      Call.control_set "Handsfree Playback Volume" 0 (some (-1)) ]

/-- The wired-headset block of `setDefaultControls`. -/
def headsetControls (devices : Nat) : List Call :=
  if devices &&& AudioSystem.DEVICE_OUT_WIRED_HEADSET ≠ 0 then
    [ Call.control_set_str "HS Left Playback" "HS DAC",
      Call.control_set_str "HS Right Playback" "HS DAC",
      Call.control_set "Headset Playback Volume" 15 none ]
  else
    [ Call.control_set_str "HS Left Playback" "Off",
      Call.control_set_str "HS Right Playback" "Off",
      Call.control_set "Headset Playback Volume" 0 (some (-1)) ]

/-- The earpiece block of `setDefaultControls`. -/
def earpieceControls (devices : Nat) : List Call :=
  if devices &&& AudioSystem.DEVICE_OUT_EARPIECE ≠ 0 then
    [ Call.control_set "Earphone Driver Switch" 1 none,
      Call.control_set "Earphone Playback Volume" 15 none ]
  else
    [ Call.control_set "Earphone Driver Switch" 0 (some 0),
      Call.control_set "Earphone Playback Volume" 0 (some (-1)) ]

/-- The DL1/DL2 mixer block of `setDefaultControls`. -/
def downlinkControls (devices : Nat) : List Call :=
  if devices &&& AudioSystem.DEVICE_OUT_SPEAKER ≠ 0 ∨
      devices &&& AudioSystem.DEVICE_OUT_EARPIECE ≠ 0 ∨
      devices &&& AudioSystem.DEVICE_OUT_WIRED_HEADSET ≠ 0 then
    [ Call.control_set "DL1 Mixer Multimedia" 1 none,
      Call.control_set "DL1 Mixer Tones" 1 none,
      Call.control_set "DL1 Mixer Voice" 1 none,
      Call.control_set "Sidetone Mixer Playback" 1 none,
      Call.control_set "DL1 PDM Switch" 1 none,
      Call.control_set "DL1 Media Playback Volume" 118 none,
      Call.control_set "DL1 Tones Playback Volume" 118 none,
      Call.control_set "DL1 Voice Playback Volume" 118 none,
      Call.control_set "DL2 Mixer Multimedia" 1 none,
      Call.control_set "DL2 Mixer Tones" 1 none,
      Call.control_set "DL2 Mixer Voice" 1 none ]
  else
    [ Call.control_set "DL1 Mixer Multimedia" 0 (some 0),
      Call.control_set "DL1 Mixer Tones" 0 (some 0),
      Call.control_set "DL1 Mixer Voice" 0 (some 0),
      Call.control_set "Sidetone Mixer Playback" 0 (some 0),
      Call.control_set "DL1 PDM Switch" 0 (some 0),
      Call.control_set "DL1 Media Playback Volume" 0 (some (-1)),
      Call.control_set "DL1 Tones Playback Volume" 0 (some (-1)),
      Call.control_set "DL1 Voice Playback Volume" 0 (some (-1)),
      Call.control_set "DL2 Mixer Multimedia" 0 (some 0),
      Call.control_set "DL2 Mixer Tones" 0 (some 0),
      Call.control_set "DL2 Mixer Voice" 0 (some 0) ]

/-- The microphone block of `setDefaultControls`. -/
def micControls (devices : Nat) : List Call :=
  if devices &&& AudioSystem.DEVICE_IN_BUILTIN_MIC ≠ 0 then
    [ Call.control_set_str "Analog Left Capture Route" "Main Mic",
      Call.control_set_str "Analog Right Capture Route" "Sub Mic",
      Call.control_set "Capture Preamplifier Volume" 1 none,
      Call.control_set "Capture Volume" 4 none ]
  else if devices &&& AudioSystem.DEVICE_IN_WIRED_HEADSET ≠ 0 then
    [ Call.control_set_str "Analog Left Capture Route" "Headset Mic",
      Call.control_set_str "Analog Right Capture Route" "Headset Mic",
      Call.control_set "Capture Preamplifier Volume" 1 none,
      Call.control_set "Capture Volume" 4 none ]
  else
    [ Call.control_set_str "Analog Left Capture Route" "Off",
      Call.control_set_str "Analog Right Capture Route" "Off",
      Call.control_set "Capture Preamplifier Volume" 0 (some (-1)),
      Call.control_set "Capture Volume" 0 (some (-1)) ]

/-- The uplink block of `setDefaultControls`. -/
def uplinkControls (devices : Nat) : List Call :=
  if devices &&& AudioSystem.DEVICE_IN_BUILTIN_MIC ≠ 0 ∨
      devices &&& AudioSystem.DEVICE_IN_WIRED_HEADSET ≠ 0 then
    [ Call.control_set "AMIC_UL PDM Switch" 1 none,
      Call.control_set_str "MUX_UL00" "AMic1",
      Call.control_set_str "MUX_UL01" "AMic0",
      Call.control_set_str "MUX_UL10" "AMic1",
      Call.control_set_str "MUX_UL11" "AMic0",
      Call.control_set "Voice Capture Mixer Capture" 1 none,
      Call.control_set_str "MUX_VX0" "AMic1",
      Call.control_set_str "MUX_VX1" "AMic0" ]
  else
    [ Call.control_set "AMIC_UL PDM Switch" 0 (some 0),
      Call.control_set_str "MUX_UL00" "None",
      Call.control_set_str "MUX_UL01" "None",
      Call.control_set_str "MUX_UL10" "None",
      Call.control_set_str "MUX_UL11" "None",
      Call.control_set "Voice Capture Mixer Capture" 0 (some 0),
      Call.control_set_str "MUX_VX0" "None",
      Call.control_set_str "MUX_VX1" "None" ]

/-- The function `setDefaultControls`: the modem hook when the module is built
with it, then the output blocks when a low-word bit is set, then the input
blocks when a high-word bit is set.  The status of every `control.set` is
dropped. -/
def setDefaultControls (w : World) (devices : Nat) (mode : Int) : List Call :=
  (if w.AUDIO_MODEM_TI then [Call.voiceCallControls devices mode] else []) ++
  (if devices &&& 0x0000FFFF ≠ 0 then
    (applyControls w (speakerControls devices)).2 ++
    (applyControls w (headsetControls devices)).2 ++
    (applyControls w (earpieceControls devices)).2 ++
    (applyControls w (downlinkControls devices)).2
   else []) ++
  (if devices >>> 16 ≠ 0 then
    (applyControls w (micControls devices)).2 ++
    (applyControls w (uplinkControls devices)).2
   else [])

/-- The indirect call `set(devices, mode)` through `handle->modPrivate`. -/
def AlsaControlSet.call (w : World) : AlsaControlSet → Nat → Int → List Call
  | AlsaControlSet.setScoControls, devices, mode => Omap4.setScoControls devices mode
  | AlsaControlSet.setFmControls, devices, mode => Omap4.setFmControls devices mode
  | AlsaControlSet.setHDMIControls, devices, mode => Omap4.setHDMIControls devices mode
  | AlsaControlSet.setDefaultControls, devices, mode => Omap4.setDefaultControls w devices mode

/-- The function `setAlsaControls`; the call list opens with the record of the
indirect call, followed by what the strategy did. -/
def setAlsaControls (w : World) (handle : alsa_handle_t) (devices : Nat) (mode : Int) :
    alsa_handle_t × List Call :=
  let set := handle.modPrivate
  ({ handle with curDev := devices, curMode := mode },
    Call.alsaControlSet set devices mode :: set.call w devices mode)

/-! ## Entry points -/

/-- The inner loop of `s_init`,
`for (b = 1; (bufferSize & ~b) != 0; b <<= 1) bufferSize &= ~b;`,
run for at most `fuel` tests of its condition. -/
def normalizeLoop : Nat → Nat → Nat → Option Nat
  | 0, _, _ => none
  | fuel + 1, bufferSize, b =>
    if bufferSize &&& wordNot b ≠ 0 then
      normalizeLoop fuel (bufferSize &&& wordNot b) ((b <<< 1) % 2 ^ WORD_BITS)
    else some bufferSize

/-- The outer loop of `s_init` over the table: every entry gets the module
pointer and its normalised buffer size, and is pushed on the list. -/
def initLoop (fuel : Nat) (module : Nat) :
    List alsa_handle_t → Option (List alsa_handle_t)
  | [] => some []
  | d :: ds =>
    match normalizeLoop fuel d.bufferSize 1, initLoop fuel module ds with
    | some bufferSize, some rest =>
      some ({ d with module := module, bufferSize := bufferSize } :: rest)
    | _, _ => none

/-- The function `s_init` on the table `defaults`: the status and the handle
list, which is also the table as the in-place update leaves it.  `none` when
`fuel` does not suffice for an inner loop. -/
def s_init (fuel : Nat) (module : Nat) (defaults : List alsa_handle_t) :
    Option (status_t × List alsa_handle_t) :=
  match initLoop fuel module defaults with
  | some list => some (NO_ERROR, list)
  | none => none

def s_close (w : World) (handle : alsa_handle_t) : Ret :=
  let h := handle.handle
  let handle := { handle with handle := none, curDev := 0, curMode := 0 }
  match h with
  | some pcm =>
    ⟨w.snd_pcm_close pcm, handle, [Call.snd_pcm_drain pcm, Call.snd_pcm_close pcm]⟩
  | none => ⟨NO_ERROR, handle, []⟩

def s_open (w : World) (handle : alsa_handle_t) (devices : Nat) (mode : Int) : Ret :=
  let closed := s_close w handle
  let handle := closed.handle
  let devName := deviceName handle devices mode
  let ctl := setAlsaControls w handle devices mode
  let handle := ctl.1
  let err := (w.snd_pcm_open devName (direction handle) 0).1
  let cs := closed.calls ++ ctl.2 ++ [Call.snd_pcm_open devName (direction handle) 0]
  if err < 0 then ⟨NO_INIT, handle, cs⟩ else
  let handle := { handle with handle := some (w.snd_pcm_open devName (direction handle) 0).2 }
  let hw := setHardwareParams w handle
  if hw.status = NO_ERROR then
    let sw := setSoftwareParams w hw.handle
    ⟨sw.status, sw.handle, cs ++ hw.calls ++ sw.calls⟩
  else ⟨hw.status, hw.handle, cs ++ hw.calls⟩

def s_route (w : World) (handle : alsa_handle_t) (devices : Nat) (mode : Int) : Ret :=
  if devices = 0 then ⟨NO_ERROR, handle, []⟩
  else if handle.handle ≠ none ∧ handle.curDev = devices ∧ handle.curMode = mode then
    ⟨NO_ERROR, handle, []⟩
  else if handle.handle ≠ none ∧ handle.devices &&& devices ≠ 0 then
    let ctl := setAlsaControls w handle devices mode
    ⟨NO_ERROR, ctl.1, ctl.2⟩
  else
    let opened := s_open w handle devices mode
    if w.AUDIO_MODEM_TI then
      ⟨w.voiceCallControls devices mode, opened.handle,
        opened.calls ++ [Call.voiceCallControls devices mode]⟩
    else opened

/-! ## Classification of calls -/

/-- Calls to the mixer or the voice modem: control programming. -/
def Call.isControl : Call → Bool
  | Call.control_set _ _ _ => true
  | Call.control_set_str _ _ => true
  | Call.voiceCallControls _ _ => true
  | _ => false

/-- The record of an indirect call through `modPrivate`. -/
def Call.isStrategy : Call → Bool
  | Call.alsaControlSet _ _ _ => true
  | _ => false

/-- Calls to the ALSA PCM library (the transport), `LOG_ALWAYS_FATAL` apart. -/
def Call.isTransport : Call → Bool
  | Call.control_set _ _ _ => false
  | Call.control_set_str _ _ => false
  | Call.voiceCallControls _ _ => false
  | Call.alsaControlSet _ _ _ => false
  | Call.LOG_ALWAYS_FATAL => false
  | _ => true

/-- The mixer control a call writes, if it is a `control.set`. -/
def Call.controlName : Call → Option String
  | Call.control_set name _ _ => some name
  | Call.control_set_str name _ => some name
  | _ => none

/-- The calls of a list that write one of the controls `names`. -/
def writesTo (names : List String) (cs : List Call) : List Call :=
  cs.filter (fun c => match c.controlName with
    | some n => decide (n ∈ names)
    | none => false)


/-! ## Concrete handles and worlds used to exercise the theorems -/

/-- The entry of the default output profile as `s_init` leaves it (buffer size
`4410` normalised to `4096`). -/
def defaultOutHandle : alsa_handle_t :=
  { module := 0, devices := OMAP4_OUT_DEFAULT, curDev := 0, curMode := 0, handle := none,
    format := SND_PCM_FORMAT_S16_LE, channels := 2, sampleRate := DEFAULT_SAMPLE_RATE,
    latency := 200000, bufferSize := 4096,
    modPrivate := AlsaControlSet.setDefaultControls }

/-- A world without voice modem in which every call succeeds: the transport
opens as pointer `7`, grants every request as asked, reads back a buffer of
`4096` frames lasting `92879` microseconds and a period of `1024` frames. -/
def calmWorld : World :=
  { AUDIO_MODEM_TI := false
    voiceCallControls := fun _ _ => 0
    control_set := fun _ _ _ => 0
    control_set_str := fun _ _ => 0
    snd_pcm_drain := fun _ => 0
    snd_pcm_close := fun _ => 0
    snd_pcm_open := fun _ _ _ => (0, 7)
    snd_pcm_hw_params_malloc := 0
    snd_pcm_hw_params_any := 0
    snd_pcm_hw_params_set_access := 0
    snd_pcm_hw_params_set_format := 0
    snd_pcm_hw_params_set_channels := 0
    snd_pcm_hw_params_set_rate_near := fun r => (0, r)
    snd_pcm_hw_params_set_buffer_size_near := fun n => (0, n)
    snd_pcm_hw_params_set_buffer_time_near := fun t => (0, t)
    snd_pcm_hw_params_set_period_time_near := fun t => (0, t)
    snd_pcm_hw_params_get_period_size := (0, 1024)
    snd_pcm_hw_params_set_buffer_size_near_2 := fun n => (0, n)
    snd_pcm_hw_params_get_buffer_size := (0, 4096)
    snd_pcm_hw_params_get_buffer_time := (0, 92879)
    snd_pcm_hw_params := 0
    snd_pcm_sw_params_malloc := 0
    snd_pcm_sw_params_current := 0
    snd_pcm_get_params := (4096, 1024)
    snd_pcm_sw_params_set_start_threshold := fun _ => 0
    snd_pcm_sw_params_set_stop_threshold := fun _ => 0
    snd_pcm_sw_params_set_avail_min := fun _ => 0
    snd_pcm_sw_params := 0 }

/-! ## Auxiliary notions for the statements -/

/-- The shape hardware negotiation leaves a handle in: only `bufferSize` and
`latency` may differ from `h`. -/
def hwFrame (h : alsa_handle_t) (r : Ret) : Prop :=
  ∃ b l, r.handle = { h with bufferSize := b, latency := l }

/-- The handle `s_open` passes to the negotiation: `h` with the requested
routing and transport pointer `pcm`. -/
def openedHandle (h : alsa_handle_t) (d : Nat) (m : Int) (pcm : Option Nat) : alsa_handle_t :=
  { h with handle := pcm, curDev := d, curMode := m }

/-- The calls of `s_open` up to and including `snd_pcm_open`. -/
def openPrefix (w : World) (h : alsa_handle_t) (d : Nat) (m : Int) : List Call :=
  (s_close w h).calls ++ (Call.alsaControlSet h.modPrivate d m :: h.modPrivate.call w d m) ++
    [Call.snd_pcm_open (deviceName h d m) (direction h) 0]


/-- Calls of hardware negotiation: the `snd_pcm_hw_params` family, and the
fatal log of a failed allocation. -/
def Call.isHardwareNegotiation : Call → Bool
  | Call.snd_pcm_hw_params_malloc => true
  | Call.LOG_ALWAYS_FATAL => true
  | Call.snd_pcm_hw_params_any _ => true
  | Call.snd_pcm_hw_params_set_access _ => true
  | Call.snd_pcm_hw_params_set_format _ _ => true
  | Call.snd_pcm_hw_params_set_channels _ _ => true
  | Call.snd_pcm_hw_params_set_rate_near _ _ => true
  | Call.snd_pcm_hw_params_set_buffer_size_near _ _ => true
  | Call.snd_pcm_hw_params_set_buffer_time_near _ _ => true
  | Call.snd_pcm_hw_params_set_period_time_near _ _ => true
  | Call.snd_pcm_hw_params_get_period_size => true
  | Call.snd_pcm_hw_params_get_buffer_size => true
  | Call.snd_pcm_hw_params_get_buffer_time => true
  | Call.snd_pcm_hw_params _ => true
  | Call.snd_pcm_hw_params_free => true
  | _ => false

/-- Calls of software negotiation: the `snd_pcm_sw_params` family, the
read-back `snd_pcm_get_params`, and the fatal log of a failed allocation. -/
def Call.isSoftwareNegotiation : Call → Bool
  | Call.snd_pcm_sw_params_malloc => true
  | Call.LOG_ALWAYS_FATAL => true
  | Call.snd_pcm_sw_params_current _ => true
  | Call.snd_pcm_get_params _ => true
  | Call.snd_pcm_sw_params_set_start_threshold _ _ => true
  | Call.snd_pcm_sw_params_set_stop_threshold _ _ => true
  | Call.snd_pcm_sw_params_set_avail_min _ _ => true
  | Call.snd_pcm_sw_params _ => true
  | Call.snd_pcm_sw_params_free => true
  | _ => false

/-- The drain and close `s_close` issues on the transport a handle holds. -/
def closeCalls (h : alsa_handle_t) : List Call :=
  match h.handle with
  | some pcm => [Call.snd_pcm_drain pcm, Call.snd_pcm_close pcm]
  | none => []

/-- A world in which the transport opens and every negotiation step answers
`0`, whatever it is asked. -/
def World.succeeds (w : World) : Prop :=
  (∀ name stream flags, (w.snd_pcm_open name stream flags).1 = 0) ∧
  w.snd_pcm_hw_params_malloc = 0 ∧
  w.snd_pcm_hw_params_any = 0 ∧
  w.snd_pcm_hw_params_set_access = 0 ∧
  w.snd_pcm_hw_params_set_format = 0 ∧
  w.snd_pcm_hw_params_set_channels = 0 ∧
  (∀ n, (w.snd_pcm_hw_params_set_buffer_size_near n).1 = 0) ∧
  (∀ n, (w.snd_pcm_hw_params_set_buffer_time_near n).1 = 0) ∧
  w.snd_pcm_hw_params_get_buffer_size.1 = 0 ∧
  w.snd_pcm_hw_params_get_buffer_time.1 = 0 ∧
  (∀ n, (w.snd_pcm_hw_params_set_period_time_near n).1 = 0) ∧
  w.snd_pcm_hw_params = 0 ∧
  w.snd_pcm_sw_params_malloc = 0 ∧
  w.snd_pcm_sw_params_current = 0 ∧
  (∀ n, w.snd_pcm_sw_params_set_start_threshold n = 0) ∧
  (∀ n, w.snd_pcm_sw_params_set_stop_threshold n = 0) ∧
  (∀ n, w.snd_pcm_sw_params_set_avail_min n = 0) ∧
  w.snd_pcm_sw_params = 0

/-- What `s_open` calls after a successful `snd_pcm_open`, on the handle `h`
it negotiates for: hardware negotiation, then software negotiation when the
former returned `NO_ERROR`. -/
def negotiationCalls (w : World) (h : alsa_handle_t) : List Call :=
  (setHardwareParams w h).calls ++
    (if (setHardwareParams w h).status = NO_ERROR then
      (setSoftwareParams w (setHardwareParams w h).handle).calls
     else [])

/-- The entry of the FM output profile as `s_init` leaves it (buffer size `8820`
normalised to `8192`). -/
def fmOutHandle : alsa_handle_t :=
  { module := 0, devices := OMAP4_OUT_FM, curDev := 0, curMode := 0, handle := none,
    format := SND_PCM_FORMAT_S16_LE, channels := 2, sampleRate := DEFAULT_SAMPLE_RATE,
    latency := 200000, bufferSize := 8192,
    modPrivate := AlsaControlSet.setFmControls }

/-- The shared downlink controls, in the order the default strategy writes
them; the flag tells the playback volumes from the switches. -/
def sharedDownlinkControls : List (String × Bool) :=
  [ ("DL1 Mixer Multimedia", false), ("DL1 Mixer Tones", false), ("DL1 Mixer Voice", false),
    ("Sidetone Mixer Playback", false), ("DL1 PDM Switch", false),
    ("DL1 Media Playback Volume", true), ("DL1 Tones Playback Volume", true),
    ("DL1 Voice Playback Volume", true),
    ("DL2 Mixer Multimedia", false), ("DL2 Mixer Tones", false), ("DL2 Mixer Voice", false) ]

/-- The settings of the shared downlink controls as the specification words
them: switched on, switches are set to `1` and volumes to `118`; switched off,
all are set to `0`, with third argument `0` for switches and `-1` for volumes. -/
def sharedDownlinkSpec (enabled : Bool) : List Call :=
  sharedDownlinkControls.map (fun c =>
    if enabled then Call.control_set c.1 (if c.2 then 118 else 1) none
    else Call.control_set c.1 0 (some (if c.2 then -1 else 0)))

/-- The capture-route and microphone gain controls. -/
def captureControlNames : List String :=
  [ "Analog Left Capture Route", "Analog Right Capture Route",
    "Capture Preamplifier Volume", "Capture Volume" ]

/-- The controls of the uplink chain. -/
def uplinkControlNames : List String :=
  [ "AMIC_UL PDM Switch", "MUX_UL00", "MUX_UL01", "MUX_UL10", "MUX_UL11",
    "Voice Capture Mixer Capture", "MUX_VX0", "MUX_VX1" ]

/-- The world `calmWorld`, except that the transport reads back a buffer of
`8192` frames lasting `185759` microseconds and then refuses the final commit
`snd_pcm_hw_params` with `-EINVAL`. -/
def commitFailsWorld : World :=
  { calmWorld with
    snd_pcm_hw_params_get_buffer_size := (0, 8192)
    snd_pcm_hw_params_get_buffer_time := (0, 185759)
    snd_pcm_hw_params := -22 }

/-- The world `calmWorld`, except that the transport refuses the channel count
with `-EINVAL`. -/
def channelsFailWorld : World :=
  { calmWorld with snd_pcm_hw_params_set_channels := -22 }

/-- A result of hardware negotiation on `h` that either issued the commit
`snd_pcm_hw_params`, or reports an error and hands `h` back as it was. -/
def hwKept (h : alsa_handle_t) (r : Ret) : Prop :=
  Call.snd_pcm_hw_params h.handle ∉ r.calls → r.status < 0 ∧ r.handle = h

/-- The world `calmWorld`, except that the transport refuses to open, with
`-ENOENT`. -/
def openFailsWorld : World :=
  { calmWorld with snd_pcm_open := fun _ _ _ => (-2, 0) }

/-- The world `calmWorld`, except that the final commit of the software
parameters is refused with `-EINVAL`. -/
def swCommitFailsWorld : World :=
  { calmWorld with snd_pcm_sw_params := -22 }

/-- The entry of the default input profile as `s_init` leaves it. -/
def defaultInHandle : alsa_handle_t :=
  { module := 0, devices := OMAP4_IN_DEFAULT, curDev := 0, curMode := 0, handle := none,
    format := SND_PCM_FORMAT_S16_LE, channels := 1,
    sampleRate := AudioRecord.DEFAULT_SAMPLE_RATE,
    latency := 250000, bufferSize := 2048,
    modPrivate := AlsaControlSet.setDefaultControls }

/-- The device name of the class of each entry of `_defaults`, in table order:
bluetooth SCO, FM, HDMI and default for the outputs, bluetooth SCO and default
for the inputs. -/
def profileDeviceNames : List String :=
  [ BLUETOOTH_SCO_DEVICE, FM_TRANSMIT_DEVICE, HDMI_DEVICE, MM_DEFAULT_DEVICE,
    BLUETOOTH_SCO_DEVICE, MM_DEFAULT_DEVICE ]

/-- The world `openFailsWorld` of a module built with the voice modem, whose
call-control hook answers `0`. -/
def modemOpenFailsWorld : World :=
  { openFailsWorld with AUDIO_MODEM_TI := true }

/-- The handle list `s_init` is to build from the table for a module pointer:
every entry with that pointer and with the normalised buffer sizes `8192`,
`8192`, `8192`, `4096`, `2048`, `2048`, in table order. -/
def initialisedHandles (module : Nat) : List alsa_handle_t :=
  List.zipWith (fun d b => { d with module := module, bufferSize := b })
    _defaults [8192, 8192, 8192, 4096, 2048, 2048]

/-- One parameter step of hardware negotiation: the call issued, the status the
transport answers, and whether a negative status aborts the negotiation. -/
structure HwStep where
  call : Call
  status : Int
  aborts : Bool

/-- The parameter steps of hardware negotiation as the specification lists
them, each with the status the world answers: initialisation, access mode,
format, channel count, sample rate, buffer size, buffer time, then either the
read-backs and the period time (buffer time granted) or the period-time
fallback (buffer time refused), then the commit.  The buffer-time step never
aborts, its failure selects the fallback; `rateAborts` tells whether a failing
sample-rate request aborts. -/
def hwSteps (rateAborts : Bool) (w : World) (h : alsa_handle_t) : List HwStep :=
  [ ⟨Call.snd_pcm_hw_params_any h.handle, w.snd_pcm_hw_params_any, true⟩,
    ⟨Call.snd_pcm_hw_params_set_access h.handle, w.snd_pcm_hw_params_set_access, true⟩,
    ⟨Call.snd_pcm_hw_params_set_format h.handle h.format,
      w.snd_pcm_hw_params_set_format, true⟩,
    ⟨Call.snd_pcm_hw_params_set_channels h.handle h.channels,
      w.snd_pcm_hw_params_set_channels, true⟩,
    ⟨Call.snd_pcm_hw_params_set_rate_near h.handle h.sampleRate,
      (w.snd_pcm_hw_params_set_rate_near h.sampleRate).1, rateAborts⟩,
    ⟨Call.snd_pcm_hw_params_set_buffer_size_near h.handle h.bufferSize,
      (w.snd_pcm_hw_params_set_buffer_size_near h.bufferSize).1, true⟩,
    ⟨Call.snd_pcm_hw_params_set_buffer_time_near h.handle h.latency,
      (w.snd_pcm_hw_params_set_buffer_time_near h.latency).1, false⟩ ] ++
  (if (w.snd_pcm_hw_params_set_buffer_time_near h.latency).1 < 0 then
    [ ⟨Call.snd_pcm_hw_params_set_period_time_near h.handle
        ((w.snd_pcm_hw_params_set_buffer_time_near h.latency).2 / 4),
        (w.snd_pcm_hw_params_set_period_time_near
          ((w.snd_pcm_hw_params_set_buffer_time_near h.latency).2 / 4)).1, true⟩,
      ⟨Call.snd_pcm_hw_params_get_period_size, w.snd_pcm_hw_params_get_period_size.1, true⟩,
      ⟨Call.snd_pcm_hw_params_set_buffer_size_near h.handle
        (max (w.snd_pcm_hw_params_get_period_size.2 * 4 % 2 ^ WORD_BITS) h.bufferSize),
        (w.snd_pcm_hw_params_set_buffer_size_near_2
          (max (w.snd_pcm_hw_params_get_period_size.2 * 4 % 2 ^ WORD_BITS) h.bufferSize)).1,
        true⟩ ]
   else
    [ ⟨Call.snd_pcm_hw_params_get_buffer_size, w.snd_pcm_hw_params_get_buffer_size.1, true⟩,
      ⟨Call.snd_pcm_hw_params_get_buffer_time, w.snd_pcm_hw_params_get_buffer_time.1, true⟩,
      ⟨Call.snd_pcm_hw_params_set_period_time_near h.handle
        (w.snd_pcm_hw_params_get_buffer_time.2 / 4),
        (w.snd_pcm_hw_params_set_period_time_near
          (w.snd_pcm_hw_params_get_buffer_time.2 / 4)).1, true⟩ ]) ++
  [ ⟨Call.snd_pcm_hw_params h.handle, w.snd_pcm_hw_params, true⟩ ]

/-- Abort at the first failure: the steps are issued in order up to and
including the first aborting step whose status is negative; the result is the
calls issued and that status, or no status when no step aborted. -/
def runSteps : List HwStep → List Call × Option Int
  | [] => ([], none)
  | s :: rest =>
    if s.aborts = true ∧ s.status < 0 then ([s.call], some s.status)
    else (s.call :: (runSteps rest).1, (runSteps rest).2)

/-- The world `calmWorld`, except that the transport refuses the sample-rate
request with `-EINVAL`. -/
def rateFailsWorld : World :=
  { calmWorld with snd_pcm_hw_params_set_rate_near := fun r => (-22, r) }

/-- A world in which hardware negotiation on `h` gets as far as the buffer-time
request: the allocation and every step before that request succeed. -/
def World.reachesBufferTime (w : World) (h : alsa_handle_t) : Prop :=
  ¬ w.snd_pcm_hw_params_malloc < 0 ∧
  ¬ w.snd_pcm_hw_params_any < 0 ∧
  ¬ w.snd_pcm_hw_params_set_access < 0 ∧
  ¬ w.snd_pcm_hw_params_set_format < 0 ∧
  ¬ w.snd_pcm_hw_params_set_channels < 0 ∧
  ¬ (w.snd_pcm_hw_params_set_buffer_size_near h.bufferSize).1 < 0

/-- The calls of hardware negotiation on `h` up to and including the
buffer-time request. -/
def bufferTimePrefix (h : alsa_handle_t) : List Call :=
  [ Call.snd_pcm_hw_params_malloc,
    Call.snd_pcm_hw_params_any h.handle,
    Call.snd_pcm_hw_params_set_access h.handle,
    Call.snd_pcm_hw_params_set_format h.handle h.format,
    Call.snd_pcm_hw_params_set_channels h.handle h.channels,
    Call.snd_pcm_hw_params_set_rate_near h.handle h.sampleRate,
    Call.snd_pcm_hw_params_set_buffer_size_near h.handle h.bufferSize,
    Call.snd_pcm_hw_params_set_buffer_time_near h.handle h.latency ]

/-- The world `calmWorld`, except that the transport refuses the buffer-time
request with `-EINVAL`, leaving the requested time as it was. -/
def bufferTimeFailsWorld : World :=
  { calmWorld with snd_pcm_hw_params_set_buffer_time_near := fun t => (-22, t) }

/-- The 22 control names of the output leg of the default strategy, in the
order they are written. -/
def outputLegNames : List String :=
  [ "DL2 Media Playback Volume", "DL2 Tones Playback Volume", "DL2 Voice Playback Volume",
    "HF Left Playback", "HF Right Playback", "Handsfree Playback Volume",
    "HS Left Playback", "HS Right Playback", "Headset Playback Volume",
    "Earphone Driver Switch", "Earphone Playback Volume",
    "DL1 Mixer Multimedia", "DL1 Mixer Tones", "DL1 Mixer Voice",
    "Sidetone Mixer Playback", "DL1 PDM Switch",
    "DL1 Media Playback Volume", "DL1 Tones Playback Volume", "DL1 Voice Playback Volume",
    "DL2 Mixer Multimedia", "DL2 Mixer Tones", "DL2 Mixer Voice" ]

/-- The 12 control names of the input leg of the default strategy, in the
order they are written. -/
def inputLegNames : List String :=
  captureControlNames ++ uplinkControlNames

/-- The control names a list of calls writes, in order. -/
def writtenNames (cs : List Call) : List String :=
  cs.filterMap Call.controlName
/-! ## Frame lemmas -/

theorem applyControls_snd (w : World) (cs : List Call) : (applyControls w cs).2 = cs := rfl

theorem speakerControls_isControl (d : Nat) :
    (speakerControls d).all Call.isControl = true := by
  unfold speakerControls; split <;> rfl

theorem headsetControls_isControl (d : Nat) :
    (headsetControls d).all Call.isControl = true := by
  unfold headsetControls; split <;> rfl

theorem earpieceControls_isControl (d : Nat) :
    (earpieceControls d).all Call.isControl = true := by
  unfold earpieceControls; split <;> rfl

theorem downlinkControls_isControl (d : Nat) :
    (downlinkControls d).all Call.isControl = true := by
  unfold downlinkControls; split <;> rfl

theorem micControls_isControl (d : Nat) :
    (micControls d).all Call.isControl = true := by
  unfold micControls; split
  · rfl
  · split <;> rfl

theorem uplinkControls_isControl (d : Nat) :
    (uplinkControls d).all Call.isControl = true := by
  unfold uplinkControls; split <;> rfl

theorem setDefaultControls_isControl (w : World) (d : Nat) (m : Int) :
    (setDefaultControls w d m).all Call.isControl = true := by
  unfold setDefaultControls
  simp only [applyControls_snd, List.all_append, Bool.and_eq_true]
  refine ⟨⟨?_, ?_⟩, ?_⟩
  · split <;> rfl
  · split
    · simp only [List.all_append, Bool.and_eq_true]
      exact ⟨⟨⟨speakerControls_isControl d, headsetControls_isControl d⟩,
        earpieceControls_isControl d⟩, downlinkControls_isControl d⟩
    · rfl
  · split
    · simp only [List.all_append, Bool.and_eq_true]
      exact ⟨micControls_isControl d, uplinkControls_isControl d⟩
    · rfl

/-- Whatever strategy a handle points to makes control calls only. -/
theorem strategy_isControl (w : World) (set : AlsaControlSet) (d : Nat) (m : Int) :
    (set.call w d m).all Call.isControl = true := by
  cases set
  · rfl
  · rfl
  · rfl
  · exact setDefaultControls_isControl w d m

theorem isControl_not_transport (c : Call) (h : c.isControl = true) :
    c.isTransport = false := by
  cases c <;> simp_all [Call.isControl, Call.isTransport]

theorem isControl_not_strategy (c : Call) (h : c.isControl = true) :
    c.isStrategy = false := by
  cases c <;> simp_all [Call.isControl, Call.isStrategy]

theorem setSoftwareParams_handle (w : World) (h : alsa_handle_t) :
    (setSoftwareParams w h).handle = h := by
  unfold setSoftwareParams
  simp only [swDone]
  split_ifs <;> rfl

theorem hwDone_frame (h : alsa_handle_t) (e : status_t) (cs : List Call) :
    hwFrame h (hwDone e h cs) := ⟨h.bufferSize, h.latency, rfl⟩

theorem hwCommit_frame (w : World) (h : alsa_handle_t) (b l : Nat) (cs : List Call) :
    hwFrame h (hwCommit w h b l cs) := ⟨b, l, rfl⟩

theorem hwPeriodFallback_frame (w : World) (h : alsa_handle_t) (l : Nat) (cs : List Call) :
    hwFrame h (hwPeriodFallback w h l cs) := by
  unfold hwPeriodFallback
  dsimp only
  repeat' first
    | exact hwDone_frame _ _ _
    | exact hwCommit_frame _ _ _ _ _
    | split

theorem hwBufferTimeOk_frame (w : World) (h : alsa_handle_t) (cs : List Call) :
    hwFrame h (hwBufferTimeOk w h cs) := by
  unfold hwBufferTimeOk
  dsimp only
  repeat' first
    | exact hwDone_frame _ _ _
    | exact hwCommit_frame _ _ _ _ _
    | split

/-- Hardware negotiation touches no field but `bufferSize` and `latency`. -/
theorem setHardwareParams_handle (w : World) (h : alsa_handle_t) :
    ∃ b l, (setHardwareParams w h).handle = { h with bufferSize := b, latency := l } := by
  show hwFrame h (setHardwareParams w h)
  unfold setHardwareParams
  dsimp only
  repeat' first
    | exact ⟨h.bufferSize, h.latency, rfl⟩
    | exact hwDone_frame _ _ _
    | exact hwPeriodFallback_frame _ _ _ _
    | exact hwBufferTimeOk_frame _ _ _
    | split

theorem s_close_handle (w : World) (h : alsa_handle_t) :
    (s_close w h).handle = { h with handle := none, curDev := 0, curMode := 0 } := by
  unfold s_close
  cases h.handle <;> rfl

/-- The function `s_open` written over the handle it was given. -/
theorem s_open_eq (w : World) (h : alsa_handle_t) (d : Nat) (m : Int) :
    s_open w h d m =
      if (w.snd_pcm_open (deviceName h d m) (direction h) 0).1 < 0 then
        ⟨NO_INIT, openedHandle h d m none, openPrefix w h d m⟩
      else if (setHardwareParams w (openedHandle h d m
          (some (w.snd_pcm_open (deviceName h d m) (direction h) 0).2))).status = NO_ERROR then
        ⟨(setSoftwareParams w (setHardwareParams w (openedHandle h d m
            (some (w.snd_pcm_open (deviceName h d m) (direction h) 0).2))).handle).status,
          (setSoftwareParams w (setHardwareParams w (openedHandle h d m
            (some (w.snd_pcm_open (deviceName h d m) (direction h) 0).2))).handle).handle,
          openPrefix w h d m ++
            (setHardwareParams w (openedHandle h d m
              (some (w.snd_pcm_open (deviceName h d m) (direction h) 0).2))).calls ++
            (setSoftwareParams w (setHardwareParams w (openedHandle h d m
              (some (w.snd_pcm_open (deviceName h d m) (direction h) 0).2))).handle).calls⟩
      else
        ⟨(setHardwareParams w (openedHandle h d m
            (some (w.snd_pcm_open (deviceName h d m) (direction h) 0).2))).status,
          (setHardwareParams w (openedHandle h d m
            (some (w.snd_pcm_open (deviceName h d m) (direction h) 0).2))).handle,
          openPrefix w h d m ++
            (setHardwareParams w (openedHandle h d m
              (some (w.snd_pcm_open (deviceName h d m) (direction h) 0).2))).calls⟩ := by
  unfold s_open
  simp only [s_close_handle]
  rfl

/-- Whatever its outcome, `s_open` leaves `curDev` and `curMode` at the
requested values, and the transport pointer null exactly when the transport
failed to open. -/
theorem s_open_cur (w : World) (h : alsa_handle_t) (d : Nat) (m : Int) :
    (s_open w h d m).handle.curDev = d ∧ (s_open w h d m).handle.curMode = m ∧
    ((s_open w h d m).handle.handle ≠ none ↔
      ¬ (w.snd_pcm_open (deviceName h d m) (direction h) 0).1 < 0) := by
  rw [s_open_eq]
  obtain ⟨b, l, hb⟩ := setHardwareParams_handle w
    (openedHandle h d m (some (w.snd_pcm_open (deviceName h d m) (direction h) 0).2))
  split_ifs with h1 h2
  · simp [h1, openedHandle]
  · simp only [setSoftwareParams_handle, hb]
    simp [h1, openedHandle]
  · simp only [hb]
    simp [h1, openedHandle]

/-- A failed `snd_pcm_open` makes `s_open` return `NO_INIT`. -/
theorem s_open_status_of_open_failed (w : World) (h : alsa_handle_t) (d : Nat) (m : Int)
    (hfail : (w.snd_pcm_open (deviceName h d m) (direction h) 0).1 < 0) :
    (s_open w h d m).status = NO_INIT := by
  rw [s_open_eq, if_pos hfail]

/-! ## The handles of the table after `s_init` -/

theorem defaultOutHandle_of_init :
    (s_init WORD_BITS 0 _defaults).bind (fun r => r.2.get? 3) = some defaultOutHandle := by
  decide

theorem fmOutHandle_of_init :
    (s_init WORD_BITS 0 _defaults).bind (fun r => r.2.get? 1) = some fmOutHandle := by
  decide

/-! ## Routing: the three cheap cases (C1, C2, C3) -/

/-- C1: routing to the empty device mask returns `NO_ERROR`, hands the handle
back unchanged, whatever its state and the mode, and makes no call at all
(neither control programming nor transport). -/
theorem route_no_devices (w : World) (handle : alsa_handle_t) (mode : Int) :
    s_route w handle 0 mode = ⟨NO_ERROR, handle, []⟩ := by
  simp [s_route]

/-- C2: on an open handle, a request for devices the handle serves that differs
from the current routing returns `NO_ERROR`, keeps the transport pointer, makes
no transport call, goes through the handle's control strategy exactly once with
the requested devices and mode, and changes `curDev` and `curMode` only. -/
theorem route_reprogram_only (w : World) (handle : alsa_handle_t) (devices : Nat)
    (mode : Int) (hopen : handle.handle ≠ none) (hdev : devices ≠ 0)
    (hserved : handle.devices &&& devices ≠ 0)
    (hcur : ¬ (handle.curDev = devices ∧ handle.curMode = mode)) :
    (s_route w handle devices mode).status = NO_ERROR ∧
    (s_route w handle devices mode).handle =
      { handle with curDev := devices, curMode := mode } ∧
    (s_route w handle devices mode).handle.handle = handle.handle ∧
    (s_route w handle devices mode).calls =
      Call.alsaControlSet handle.modPrivate devices mode ::
        handle.modPrivate.call w devices mode ∧
    ((s_route w handle devices mode).calls.filter Call.isStrategy) =
      [Call.alsaControlSet handle.modPrivate devices mode] ∧
    (∀ c ∈ (s_route w handle devices mode).calls, c.isTransport = false) := by
  have hbody := strategy_isControl w handle.modPrivate devices mode
  rw [List.all_eq_true] at hbody
  have hr : s_route w handle devices mode =
      ⟨NO_ERROR, { handle with curDev := devices, curMode := mode },
        Call.alsaControlSet handle.modPrivate devices mode ::
          handle.modPrivate.call w devices mode⟩ := by
    unfold s_route
    rw [if_neg hdev, if_neg (fun hc => hcur hc.2), if_pos ⟨hopen, hserved⟩]
    rfl
  rw [hr]
  refine ⟨rfl, rfl, rfl, rfl, ?_, ?_⟩
  · simp only [List.filter_cons, Call.isStrategy, if_true]
    congr 1
    rw [List.filter_eq_nil_iff]
    intro c hc
    simp [isControl_not_strategy c (hbody c hc)]
  · intro c hc
    rcases List.mem_cons.1 hc with rfl | hc
    · rfl
    · exact isControl_not_transport c (hbody c hc)

theorem route_reprogram_only_witness :
    (s_route calmWorld { defaultOutHandle with handle := some 7 } 2 0).status = NO_ERROR ∧
    (s_route calmWorld { defaultOutHandle with handle := some 7 } 2 0).handle =
      { defaultOutHandle with handle := some 7, curDev := 2, curMode := 0 } :=
  have h := route_reprogram_only calmWorld { defaultOutHandle with handle := some 7 } 2 0
    (by decide) (by decide) (by decide) (by decide)
  ⟨h.1, h.2.1⟩

/-- C3: on an open handle already routed to the requested devices and mode,
`s_route` returns `NO_ERROR`, hands the handle back unchanged and makes no
call; and a route call repeating the arguments of a route call that left the
handle open is such a no-op, whatever the collaborators answer. -/
theorem route_same_is_noop :
    (∀ (w : World) (handle : alsa_handle_t) (devices : Nat) (mode : Int),
      handle.handle ≠ none → devices ≠ 0 →
      handle.curDev = devices → handle.curMode = mode →
      s_route w handle devices mode = ⟨NO_ERROR, handle, []⟩) ∧
    (∀ (w w2 : World) (handle : alsa_handle_t) (devices : Nat) (mode : Int),
      (s_route w handle devices mode).handle.handle ≠ none →
      s_route w2 (s_route w handle devices mode).handle devices mode =
        ⟨NO_ERROR, (s_route w handle devices mode).handle, []⟩) := by
  have first : ∀ (w : World) (handle : alsa_handle_t) (devices : Nat) (mode : Int),
      handle.handle ≠ none → handle.curDev = devices → handle.curMode = mode →
      s_route w handle devices mode = ⟨NO_ERROR, handle, []⟩ := by
    intro w handle devices mode hopen hd hm
    unfold s_route
    split_ifs with h1 h2
    · rfl
    · rfl
    · exact absurd ⟨hopen, hd, hm⟩ h2
    · exact absurd ⟨hopen, hd, hm⟩ h2
    · exact absurd ⟨hopen, hd, hm⟩ h2
  refine ⟨fun w handle devices mode hopen _ hd hm => first w handle devices mode hopen hd hm,
    ?_⟩
  intro w w2 handle devices mode hopen
  by_cases h0 : devices = 0
  · subst h0
    simp [s_route]
  · apply first w2 _ devices mode hopen
    · unfold s_route
      rw [if_neg h0]
      split_ifs with h2 h3 h4
      · exact h2.2.1
      · rfl
      · exact (s_open_cur w handle devices mode).1
      · exact (s_open_cur w handle devices mode).1
    · unfold s_route
      rw [if_neg h0]
      split_ifs with h2 h3 h4
      · exact h2.2.2
      · rfl
      · exact (s_open_cur w handle devices mode).2.1
      · exact (s_open_cur w handle devices mode).2.1

theorem route_same_is_noop_witness :
    s_route calmWorld { defaultOutHandle with handle := some 7, curDev := 2 } 2 0 =
      ⟨NO_ERROR, { defaultOutHandle with handle := some 7, curDev := 2 }, []⟩ ∧
    s_route calmWorld (s_route calmWorld defaultOutHandle 2 0).handle 2 0 =
      ⟨NO_ERROR, (s_route calmWorld defaultOutHandle 2 0).handle, []⟩ :=
  ⟨route_same_is_noop.1 calmWorld { defaultOutHandle with handle := some 7, curDev := 2 } 2 0
      (by decide) (by decide) rfl rfl,
   route_same_is_noop.2 calmWorld calmWorld defaultOutHandle 2 0 (by decide)⟩

/-! ## Opening (C4) -/

/-- C4: when `s_open` returns `NO_ERROR`, the handle has `curDev = devices`,
`curMode = mode` and a non-null transport pointer. -/
theorem open_success_sets_current (w : World) (handle : alsa_handle_t) (devices : Nat)
    (mode : Int) (hok : (s_open w handle devices mode).status = NO_ERROR) :
    (s_open w handle devices mode).handle.curDev = devices ∧
    (s_open w handle devices mode).handle.curMode = mode ∧
    (s_open w handle devices mode).handle.handle ≠ none := by
  obtain ⟨hd, hm, hp⟩ := s_open_cur w handle devices mode
  refine ⟨hd, hm, hp.2 ?_⟩
  intro hfail
  have : (s_open w handle devices mode).status = NO_INIT :=
    s_open_status_of_open_failed w handle devices mode hfail
  rw [this] at hok
  exact absurd hok (by decide)

theorem open_success_sets_current_witness :
    (s_open calmWorld defaultOutHandle 2 0).status = NO_ERROR ∧
    (s_open calmWorld defaultOutHandle 2 0).handle.curDev = 2 ∧
    (s_open calmWorld defaultOutHandle 2 0).handle.curMode = 0 ∧
    (s_open calmWorld defaultOutHandle 2 0).handle.handle ≠ none :=
  ⟨by decide, open_success_sets_current calmWorld defaultOutHandle 2 0 (by decide)⟩

/-! ## Buffer-frame normalisation (C5) -/

/-- Masking a multiple of `2 ^ k` with `~(2 ^ k)` clears bit `k`. -/
theorem wordNot_clear_bit (k q : Nat) (hk : k < WORD_BITS) (hq : q < 2 ^ (WORD_BITS - k)) :
    (2 ^ k * q) &&& wordNot (2 ^ k) = 2 ^ (k + 1) * (q / 2) := by
  apply Nat.eq_of_testBit_eq
  intro i
  have hmod : 2 ^ k % 2 ^ WORD_BITS = 2 ^ k :=
    Nat.mod_eq_of_lt (Nat.pow_lt_pow_right (by decide) hk)
  simp only [wordNot, hmod, Nat.testBit_and, Nat.testBit_xor, Nat.testBit_mul_pow_two,
    Nat.testBit_two_pow_sub_one, Nat.testBit_two_pow]
  by_cases h1 : i < k
  · have : ¬ i ≥ k := by omega
    have : ¬ i ≥ k + 1 := by omega
    simp [*]
  · by_cases h2 : i = k
    · subst h2
      simp [hk]
    · have h3 : i ≥ k + 1 := by omega
      have h4 : i ≥ k := by omega
      have h5 : ¬ k = i := by omega
      have h6 : (q / 2).testBit (i - (k + 1)) = q.testBit (i - k) := by
        rw [← Nat.testBit_succ]
        congr 1
        omega
      by_cases h7 : i < WORD_BITS
      · simp [h3, h4, h5, h6, h7]
      · have h8 : q.testBit (i - k) = false := by
          apply Nat.testBit_lt_two_pow
          calc q < 2 ^ (WORD_BITS - k) := hq
            _ ≤ 2 ^ (i - k) := Nat.pow_le_pow_right (by decide) (by omega)
        simp [h3, h4, h5, h6, h7, h8]

theorem shiftLeft_one_pow (k : Nat) (hk : k + 1 < WORD_BITS) :
    ((2 ^ k) <<< 1) % 2 ^ WORD_BITS = 2 ^ (k + 1) := by
  rw [Nat.shiftLeft_eq, Nat.pow_one, ← Nat.pow_succ]
  exact Nat.mod_eq_of_lt (Nat.pow_lt_pow_right (by decide) hk)

/-- The loop run from `b = 2 ^ k` on a buffer size whose bits below `k` are clear. -/
theorem normalizeLoop_from : ∀ (fuel k q : Nat), k < WORD_BITS → q < 2 ^ (WORD_BITS - k) →
    WORD_BITS ≤ fuel + k →
    normalizeLoop fuel (2 ^ k * q) (2 ^ k) =
      some (if q = 0 then 0 else 2 ^ (k + Nat.log 2 q)) := by
  intro fuel
  induction fuel with
  | zero =>
    intro k q hk _ hf
    omega
  | succ fuel ih =>
    intro k q hk hq hf
    rw [normalizeLoop, wordNot_clear_bit k q hk hq]
    by_cases h2 : q / 2 = 0
    · have hlt : q < 2 := by omega
      have : 2 ^ (k + 1) * (q / 2) = 0 := by simp [h2]
      simp only [this, ne_eq, not_true_eq_false, if_false]
      by_cases h0 : q = 0
      · simp [h0]
      · have h1 : q = 1 := by omega
        simp [h1]
    · have hge : 2 ≤ q := by omega
      have hne : 2 ^ (k + 1) * (q / 2) ≠ 0 := by
        have : 0 < 2 ^ (k + 1) := Nat.pos_pow_of_pos _ (by decide)
        exact Nat.mul_ne_zero (by omega) h2
      have hk1 : k + 1 < WORD_BITS := by
        by_contra hcon
        have hk' : WORD_BITS - k = 1 := by omega
        rw [hk'] at hq
        omega
      have hq' : q / 2 < 2 ^ (WORD_BITS - (k + 1)) := by
        have : WORD_BITS - k = (WORD_BITS - (k + 1)) + 1 := by omega
        rw [this, Nat.pow_succ] at hq
        omega
      rw [if_pos hne, shiftLeft_one_pow k hk1, ih (k + 1) (q / 2) hk1 hq' (by omega)]
      have hq0 : q ≠ 0 := by omega
      rw [if_neg h2, if_neg hq0]
      have : Nat.log 2 q = Nat.log 2 (q / 2) + 1 := Nat.log_of_one_lt_of_le (by decide) hge
      rw [this]
      congr 2
      omega

/-- C5: the normalisation loop of `s_init` terminates on every machine word
(`WORD_BITS` tests of its condition always suffice); for `n ≥ 1` it returns the
largest power of two that is `≤ n`, for `n = 0` it returns `0`, and it maps
`8820` to `8192`. -/
theorem normalize_largest_power_of_two (n fuel : Nat) (hn : n < 2 ^ WORD_BITS)
    (hfuel : WORD_BITS ≤ fuel) :
    normalizeLoop fuel n 1 = some (if n = 0 then 0 else 2 ^ Nat.log 2 n) ∧
    (n ≠ 0 → 2 ^ Nat.log 2 n ≤ n ∧ ∀ k, 2 ^ k ≤ n → 2 ^ k ≤ 2 ^ Nat.log 2 n) ∧
    normalizeLoop fuel 8820 1 = some 8192 := by
  have run : ∀ x, x < 2 ^ WORD_BITS →
      normalizeLoop fuel x 1 = some (if x = 0 then 0 else 2 ^ Nat.log 2 x) := by
    intro x hx
    have h := normalizeLoop_from fuel 0 x (by decide) (by simpa using hx) (by omega)
    simpa using h
  refine ⟨run n hn, ?_, ?_⟩
  · intro h0
    refine ⟨Nat.pow_log_le_self 2 h0, fun k hk => ?_⟩
    exact Nat.pow_le_pow_right (by decide) (Nat.le_log_of_pow_le (by decide) hk)
  · rw [run 8820 (by decide)]
    have : Nat.log 2 8820 = 13 :=
      Nat.log_eq_of_pow_le_of_lt_pow (by norm_num) (by norm_num)
    simp [this]

theorem normalize_largest_power_of_two_witness :
    normalizeLoop 32 8820 1 = some (if 8820 = 0 then 0 else 2 ^ Nat.log 2 8820) ∧
    normalizeLoop 32 8820 1 = some 8192 :=
  have h := normalize_largest_power_of_two 8820 32 (by decide) (by decide)
  ⟨h.1, h.2.2⟩

/-! ## Order of effects in `s_open` (C6) -/

theorem s_close_calls (w : World) (h : alsa_handle_t) : (s_close w h).calls = closeCalls h := by
  unfold s_close closeCalls
  cases h.handle <;> rfl

theorem hwDone_calls (h : alsa_handle_t) (e : status_t) (cs : List Call)
    (hcs : cs.all Call.isHardwareNegotiation = true) :
    (hwDone e h cs).calls.all Call.isHardwareNegotiation = true := by
  simp only [hwDone, List.all_append, hcs]
  rfl

theorem hwCommit_calls (w : World) (h : alsa_handle_t) (b l : Nat) (cs : List Call)
    (hcs : cs.all Call.isHardwareNegotiation = true) :
    (hwCommit w h b l cs).calls.all Call.isHardwareNegotiation = true := by
  unfold hwCommit
  apply hwDone_calls
  simp only [List.all_append, hcs]
  rfl

theorem all_snoc_hw (cs : List Call) (c : Call)
    (hcs : cs.all Call.isHardwareNegotiation = true) (hc : c.isHardwareNegotiation = true) :
    (cs ++ [c]).all Call.isHardwareNegotiation = true := by
  simp [List.all_append, hcs, hc]

theorem hwPeriodFallback_calls (w : World) (h : alsa_handle_t) (l : Nat) (cs : List Call)
    (hcs : cs.all Call.isHardwareNegotiation = true) :
    (hwPeriodFallback w h l cs).calls.all Call.isHardwareNegotiation = true := by
  unfold hwPeriodFallback
  dsimp only
  repeat' first
    | exact hcs
    | exact rfl
    | apply hwDone_calls
    | apply hwCommit_calls
    | apply all_snoc_hw
    | split

theorem hwBufferTimeOk_calls (w : World) (h : alsa_handle_t) (cs : List Call)
    (hcs : cs.all Call.isHardwareNegotiation = true) :
    (hwBufferTimeOk w h cs).calls.all Call.isHardwareNegotiation = true := by
  unfold hwBufferTimeOk
  dsimp only
  repeat' first
    | exact hcs
    | exact rfl
    | apply hwDone_calls
    | apply hwCommit_calls
    | apply all_snoc_hw
    | split

/-- Hardware negotiation calls nothing but the `snd_pcm_hw_params` family. -/
theorem setHardwareParams_calls (w : World) (h : alsa_handle_t) :
    (setHardwareParams w h).calls.all Call.isHardwareNegotiation = true := by
  unfold setHardwareParams
  dsimp only
  repeat' first
    | exact rfl
    | apply hwDone_calls
    | apply hwPeriodFallback_calls
    | apply hwBufferTimeOk_calls
    | apply all_snoc_hw
    | split

theorem swDone_calls (h : alsa_handle_t) (e : status_t) (cs : List Call)
    (hcs : cs.all Call.isSoftwareNegotiation = true) :
    (swDone e h cs).calls.all Call.isSoftwareNegotiation = true := by
  simp only [swDone, List.all_append, hcs]
  rfl

theorem all_snoc_sw (cs : List Call) (c : Call)
    (hcs : cs.all Call.isSoftwareNegotiation = true) (hc : c.isSoftwareNegotiation = true) :
    (cs ++ [c]).all Call.isSoftwareNegotiation = true := by
  simp [List.all_append, hcs, hc]

/-- Software negotiation calls nothing but the `snd_pcm_sw_params` family and
the read-back of the committed sizes. -/
theorem setSoftwareParams_calls (w : World) (h : alsa_handle_t) :
    (setSoftwareParams w h).calls.all Call.isSoftwareNegotiation = true := by
  unfold setSoftwareParams
  dsimp only
  repeat' first
    | exact rfl
    | apply swDone_calls
    | apply all_snoc_sw
    | split

theorem s_open_calls (w : World) (h : alsa_handle_t) (d : Nat) (m : Int) :
    (s_open w h d m).calls =
      closeCalls h ++
      (Call.alsaControlSet h.modPrivate d m :: h.modPrivate.call w d m) ++
      [Call.snd_pcm_open (deviceName h d m) (direction h) 0] ++
      (if (w.snd_pcm_open (deviceName h d m) (direction h) 0).1 < 0 then []
       else negotiationCalls w (openedHandle h d m
          (some (w.snd_pcm_open (deviceName h d m) (direction h) 0).2))) := by
  rw [s_open_eq]
  unfold negotiationCalls openPrefix
  rw [s_close_calls]
  split_ifs <;> simp

/-- Hardware negotiation in a world where every step succeeds: the buffer-time
path, ending in the commit. -/
theorem setHardwareParams_of_succeeds (w : World) (hs : w.succeeds) (h : alsa_handle_t) :
    setHardwareParams w h =
      ⟨NO_ERROR,
        { h with bufferSize := w.snd_pcm_hw_params_get_buffer_size.2,
                 latency := w.snd_pcm_hw_params_get_buffer_time.2 },
        [ Call.snd_pcm_hw_params_malloc,
          Call.snd_pcm_hw_params_any h.handle,
          Call.snd_pcm_hw_params_set_access h.handle,
          Call.snd_pcm_hw_params_set_format h.handle h.format,
          Call.snd_pcm_hw_params_set_channels h.handle h.channels,
          Call.snd_pcm_hw_params_set_rate_near h.handle h.sampleRate,
          Call.snd_pcm_hw_params_set_buffer_size_near h.handle h.bufferSize,
          Call.snd_pcm_hw_params_set_buffer_time_near h.handle h.latency,
          Call.snd_pcm_hw_params_get_buffer_size,
          Call.snd_pcm_hw_params_get_buffer_time,
          Call.snd_pcm_hw_params_set_period_time_near h.handle
            (w.snd_pcm_hw_params_get_buffer_time.2 / 4),
          Call.snd_pcm_hw_params h.handle,
          Call.snd_pcm_hw_params_free ]⟩ := by
  obtain ⟨_, h1, h2, h3, h4, h5, h6, h7, h8, h9, h10, h11, _⟩ := hs
  simp [setHardwareParams, hwBufferTimeOk, hwCommit, hwDone, h1, h2, h3, h4, h5, h6, h7, h8,
    h9, h10, h11, NO_ERROR]

/-- Software negotiation in a world where every step succeeds. -/
theorem setSoftwareParams_of_succeeds (w : World) (hs : w.succeeds) (h : alsa_handle_t) :
    setSoftwareParams w h =
      ⟨NO_ERROR, h,
        [ Call.snd_pcm_sw_params_malloc,
          Call.snd_pcm_sw_params_current h.handle,
          Call.snd_pcm_get_params h.handle,
          Call.snd_pcm_sw_params_set_start_threshold h.handle
            (startThreshold h w.snd_pcm_get_params.1),
          Call.snd_pcm_sw_params_set_stop_threshold h.handle
            (stopThreshold h w.snd_pcm_get_params.1),
          Call.snd_pcm_sw_params_set_avail_min h.handle w.snd_pcm_get_params.2,
          Call.snd_pcm_sw_params h.handle,
          Call.snd_pcm_sw_params_free ]⟩ := by
  obtain ⟨_, _, _, _, _, _, _, _, _, _, _, _, h12, h13, h14, h15, h16, h17⟩ := hs
  simp [setSoftwareParams, swDone, h12, h13, h14, h15, h16, h17, NO_ERROR]

/-- C6: the effects of `s_open` come in this order: drain and close of the old
transport when the handle was open; the handle's control strategy with the
requested devices and mode (control calls only); `snd_pcm_open` with the name
resolved from the devices, the direction of the handle and flags `0`; then,
when the transport opened, hardware negotiation followed by software
negotiation, the latter only if the former returned `NO_ERROR`.  On the closed
default output handle, for the speaker bit and mode `0`, in a world where
every step succeeds: speaker leg and shared downlink enabled, open of
`plughw:0,0` for playback, hardware negotiation with 2 channels and requested
rate 44100, software negotiation with start threshold `bufferSize - 1`. -/
theorem open_effect_order :
    (∀ (w : World) (h : alsa_handle_t) (d : Nat) (m : Int),
      (s_open w h d m).calls =
        closeCalls h ++
        (Call.alsaControlSet h.modPrivate d m :: h.modPrivate.call w d m) ++
        [Call.snd_pcm_open (deviceName h d m) (direction h) 0] ++
        (if (w.snd_pcm_open (deviceName h d m) (direction h) 0).1 < 0 then []
         else negotiationCalls w (openedHandle h d m
            (some (w.snd_pcm_open (deviceName h d m) (direction h) 0).2))) ∧
      (h.modPrivate.call w d m).all Call.isControl = true ∧
      (∀ h1, (setHardwareParams w h1).calls.all Call.isHardwareNegotiation = true) ∧
      (∀ h1, (setSoftwareParams w h1).calls.all Call.isSoftwareNegotiation = true)) ∧
    (∀ (w : World), w.succeeds → 0 < w.snd_pcm_get_params.1 →
      w.snd_pcm_get_params.1 < 2 ^ WORD_BITS →
      (s_open w defaultOutHandle AudioSystem.DEVICE_OUT_SPEAKER 0).calls =
        [Call.alsaControlSet AlsaControlSet.setDefaultControls 2 0] ++
        (if w.AUDIO_MODEM_TI then [Call.voiceCallControls 2 0] else []) ++
        [ Call.control_set "DL2 Media Playback Volume" 118 none,
          Call.control_set "DL2 Tones Playback Volume" 118 none,
          Call.control_set "DL2 Voice Playback Volume" 118 none,
          Call.control_set_str "HF Left Playback" "HF DAC",
          Call.control_set_str "HF Right Playback" "HF DAC",
          Call.control_set "Handsfree Playback Volume" 29 none,
          Call.control_set_str "HS Left Playback" "Off",
          Call.control_set_str "HS Right Playback" "Off",
          Call.control_set "Headset Playback Volume" 0 (some (-1)),
          Call.control_set "Earphone Driver Switch" 0 (some 0),
          Call.control_set "Earphone Playback Volume" 0 (some (-1)),
          Call.control_set "DL1 Mixer Multimedia" 1 none,
          Call.control_set "DL1 Mixer Tones" 1 none,
          Call.control_set "DL1 Mixer Voice" 1 none,
          Call.control_set "Sidetone Mixer Playback" 1 none,
          Call.control_set "DL1 PDM Switch" 1 none,
          Call.control_set "DL1 Media Playback Volume" 118 none,
          Call.control_set "DL1 Tones Playback Volume" 118 none,
          Call.control_set "DL1 Voice Playback Volume" 118 none,
          Call.control_set "DL2 Mixer Multimedia" 1 none,
          Call.control_set "DL2 Mixer Tones" 1 none,
          Call.control_set "DL2 Mixer Voice" 1 none,
          Call.snd_pcm_open "plughw:0,0" snd_pcm_stream_t.SND_PCM_STREAM_PLAYBACK 0,
          Call.snd_pcm_hw_params_malloc,
          Call.snd_pcm_hw_params_any
            (some (w.snd_pcm_open "plughw:0,0" snd_pcm_stream_t.SND_PCM_STREAM_PLAYBACK 0).2),
          Call.snd_pcm_hw_params_set_access
            (some (w.snd_pcm_open "plughw:0,0" snd_pcm_stream_t.SND_PCM_STREAM_PLAYBACK 0).2),
          Call.snd_pcm_hw_params_set_format
            (some (w.snd_pcm_open "plughw:0,0" snd_pcm_stream_t.SND_PCM_STREAM_PLAYBACK 0).2)
            SND_PCM_FORMAT_S16_LE,
          Call.snd_pcm_hw_params_set_channels
            (some (w.snd_pcm_open "plughw:0,0" snd_pcm_stream_t.SND_PCM_STREAM_PLAYBACK 0).2) 2,
          Call.snd_pcm_hw_params_set_rate_near
            (some (w.snd_pcm_open "plughw:0,0" snd_pcm_stream_t.SND_PCM_STREAM_PLAYBACK 0).2)
            44100,
          Call.snd_pcm_hw_params_set_buffer_size_near
            (some (w.snd_pcm_open "plughw:0,0" snd_pcm_stream_t.SND_PCM_STREAM_PLAYBACK 0).2)
            4096,
          Call.snd_pcm_hw_params_set_buffer_time_near
            (some (w.snd_pcm_open "plughw:0,0" snd_pcm_stream_t.SND_PCM_STREAM_PLAYBACK 0).2)
            200000,
          Call.snd_pcm_hw_params_get_buffer_size,
          Call.snd_pcm_hw_params_get_buffer_time,
          Call.snd_pcm_hw_params_set_period_time_near
            (some (w.snd_pcm_open "plughw:0,0" snd_pcm_stream_t.SND_PCM_STREAM_PLAYBACK 0).2)
            (w.snd_pcm_hw_params_get_buffer_time.2 / 4),
          Call.snd_pcm_hw_params
            (some (w.snd_pcm_open "plughw:0,0" snd_pcm_stream_t.SND_PCM_STREAM_PLAYBACK 0).2),
          Call.snd_pcm_hw_params_free,
          Call.snd_pcm_sw_params_malloc,
          Call.snd_pcm_sw_params_current
            (some (w.snd_pcm_open "plughw:0,0" snd_pcm_stream_t.SND_PCM_STREAM_PLAYBACK 0).2),
          Call.snd_pcm_get_params
            (some (w.snd_pcm_open "plughw:0,0" snd_pcm_stream_t.SND_PCM_STREAM_PLAYBACK 0).2),
          Call.snd_pcm_sw_params_set_start_threshold
            (some (w.snd_pcm_open "plughw:0,0" snd_pcm_stream_t.SND_PCM_STREAM_PLAYBACK 0).2)
            (w.snd_pcm_get_params.1 - 1),
          Call.snd_pcm_sw_params_set_stop_threshold
            (some (w.snd_pcm_open "plughw:0,0" snd_pcm_stream_t.SND_PCM_STREAM_PLAYBACK 0).2)
            w.snd_pcm_get_params.1,
          Call.snd_pcm_sw_params_set_avail_min
            (some (w.snd_pcm_open "plughw:0,0" snd_pcm_stream_t.SND_PCM_STREAM_PLAYBACK 0).2)
            w.snd_pcm_get_params.2,
          Call.snd_pcm_sw_params
            (some (w.snd_pcm_open "plughw:0,0" snd_pcm_stream_t.SND_PCM_STREAM_PLAYBACK 0).2),
          Call.snd_pcm_sw_params_free ]) := by
  refine ⟨fun w h d m => ⟨s_open_calls w h d m, strategy_isControl w h.modPrivate d m,
    setHardwareParams_calls w, setSoftwareParams_calls w⟩, ?_⟩
  intro w hs hpos hlt
  have ho := hs.1
  have hname : deviceName defaultOutHandle AudioSystem.DEVICE_OUT_SPEAKER 0 = "plughw:0,0" := by
    decide
  have hdir : direction defaultOutHandle = snd_pcm_stream_t.SND_PCM_STREAM_PLAYBACK := by
    decide
  have hstart : ∀ x : alsa_handle_t, x.devices = defaultOutHandle.devices →
      startThreshold x w.snd_pcm_get_params.1 = w.snd_pcm_get_params.1 - 1 := by
    intro x hx
    have hout : x.devices &&& AudioSystem.DEVICE_OUT_ALL ≠ 0 := by
      rw [hx]; decide
    unfold startThreshold
    rw [if_pos hout]
    have h32 : (2 : Nat) ^ WORD_BITS = 4294967296 := by decide
    rw [h32] at hlt ⊢
    omega
  have hstop : ∀ (x : alsa_handle_t) (b : Nat), stopThreshold x b = b := by
    intro x b; unfold stopThreshold; split <;> rfl
  have hctl : AlsaControlSet.call w AlsaControlSet.setDefaultControls
      AudioSystem.DEVICE_OUT_SPEAKER 0 =
      (if w.AUDIO_MODEM_TI then [Call.voiceCallControls 2 0] else []) ++
        (speakerControls 2 ++ headsetControls 2 ++ earpieceControls 2 ++ downlinkControls 2) := by
    show setDefaultControls w 2 0 = _
    unfold setDefaultControls
    simp only [applyControls_snd]
    have e1 : (2 : Nat) &&& 0x0000FFFF ≠ 0 := by decide
    have e2 : ¬ ((2 : Nat) >>> 16 ≠ 0) := by decide
    rw [if_pos e1, if_neg e2, List.append_nil]
  rw [s_open_calls, hname, hdir, if_neg (by rw [ho]; decide)]
  unfold negotiationCalls
  rw [setHardwareParams_of_succeeds w hs, if_pos rfl, setSoftwareParams_of_succeeds w hs,
    hstop, hstart]
  · show closeCalls defaultOutHandle ++
      (Call.alsaControlSet AlsaControlSet.setDefaultControls AudioSystem.DEVICE_OUT_SPEAKER 0 ::
        AlsaControlSet.call w AlsaControlSet.setDefaultControls
          AudioSystem.DEVICE_OUT_SPEAKER 0) ++ _ ++ _ = _
    rw [hctl]
    cases w.AUDIO_MODEM_TI <;> rfl
  · rfl

theorem calmWorld_succeeds : calmWorld.succeeds :=
  ⟨fun _ _ _ => rfl, rfl, rfl, rfl, rfl, rfl, fun _ => rfl, fun _ => rfl, rfl, rfl,
    fun _ => rfl, rfl, rfl, rfl, fun _ => rfl, fun _ => rfl, fun _ => rfl, rfl⟩

theorem open_effect_order_witness :
    calmWorld.succeeds ∧
    (s_open calmWorld defaultOutHandle AudioSystem.DEVICE_OUT_SPEAKER 0).calls.length = 45 ∧
    Call.snd_pcm_sw_params_set_start_threshold (some 7) 4095 ∈
      (s_open calmWorld defaultOutHandle AudioSystem.DEVICE_OUT_SPEAKER 0).calls :=
  have h := open_effect_order.2 calmWorld calmWorld_succeeds (by decide) (by decide)
  ⟨calmWorld_succeeds, by rw [h]; rfl, by rw [h]; decide⟩

/-! ## Software thresholds by profile (C7) -/

/-- C7: the start and stop thresholds software negotiation computes, profile by
profile, for every read-back buffer size: the SCO, HDMI and default output
profiles get `bufferSize - 1` (on a machine word) and `bufferSize`, both input
profiles get `1` and `bufferSize`; the FM output profile, whose mask `0x1800`
shares no bit with `DEVICE_OUT_ALL`, gets start threshold `1` like an input.
The last part runs software negotiation on the open FM handle. -/
theorem software_thresholds_by_profile (h : alsa_handle_t) (bufferSize : Nat) :
    startThreshold { h with devices := OMAP4_OUT_SCO } bufferSize =
      (bufferSize + (2 ^ WORD_BITS - 1)) % 2 ^ WORD_BITS ∧
    startThreshold { h with devices := OMAP4_OUT_HDMI } bufferSize =
      (bufferSize + (2 ^ WORD_BITS - 1)) % 2 ^ WORD_BITS ∧
    startThreshold { h with devices := OMAP4_OUT_DEFAULT } bufferSize =
      (bufferSize + (2 ^ WORD_BITS - 1)) % 2 ^ WORD_BITS ∧
    startThreshold { h with devices := OMAP4_IN_SCO } bufferSize = 1 ∧
    startThreshold { h with devices := OMAP4_IN_DEFAULT } bufferSize = 1 ∧
    startThreshold { h with devices := OMAP4_OUT_FM } bufferSize = 1 ∧
    OMAP4_OUT_FM &&& AudioSystem.DEVICE_OUT_ALL = 0 ∧
    stopThreshold h bufferSize = bufferSize ∧
    (setSoftwareParams calmWorld { fmOutHandle with handle := some 7 }).calls =
      [ Call.snd_pcm_sw_params_malloc,
        Call.snd_pcm_sw_params_current (some 7),
        Call.snd_pcm_get_params (some 7),
        Call.snd_pcm_sw_params_set_start_threshold (some 7) 1,
        Call.snd_pcm_sw_params_set_stop_threshold (some 7) 4096,
        Call.snd_pcm_sw_params_set_avail_min (some 7) 1024,
        Call.snd_pcm_sw_params (some 7),
        Call.snd_pcm_sw_params_free ] := by
  have hout : ∀ mask : Nat, mask &&& AudioSystem.DEVICE_OUT_ALL ≠ 0 →
      startThreshold { h with devices := mask } bufferSize =
        (bufferSize + (2 ^ WORD_BITS - 1)) % 2 ^ WORD_BITS := by
    intro mask hm
    unfold startThreshold
    rw [if_pos hm]
  have hin : ∀ mask : Nat, mask &&& AudioSystem.DEVICE_OUT_ALL = 0 →
      startThreshold { h with devices := mask } bufferSize = 1 := by
    intro mask hm
    unfold startThreshold
    rw [if_neg (by simpa using hm)]
  refine ⟨hout _ (by decide), hout _ (by decide), hout _ (by decide), hin _ (by decide),
    hin _ (by decide), hin _ (by decide), by decide, ?_, by decide⟩
  unfold stopThreshold
  split <;> rfl

/-! ## The default control strategy (C8, C9) -/

theorem writesTo_append (names : List String) (a b : List Call) :
    writesTo names (a ++ b) = writesTo names a ++ writesTo names b := by
  simp [writesTo]

theorem writesTo_modem (names : List String) (b : Bool) (d : Nat) (m : Int) :
    writesTo names (if b = true then [Call.voiceCallControls d m] else []) = [] := by
  cases b <;> rfl

/-- C8: when the mask has a bit in the low 16 bits, the eleven shared downlink
controls are written exactly once each, in order, by the default strategy: with
their on values (switches `1`, volumes `118`) if and only if the speaker, the
earpiece or the wired-headset bit is set, and otherwise all with `0`, third
argument `0` for switches and `-1` for volumes; the latter in particular for
the mask holding the wired-headphone bit alone. -/
theorem shared_downlink_iff_any_leg (w : World) (devices : Nat) (mode : Int)
    (hout : devices &&& 0x0000FFFF ≠ 0) :
    writesTo (sharedDownlinkControls.map Prod.fst) (setDefaultControls w devices mode) =
      sharedDownlinkSpec (decide (devices &&& AudioSystem.DEVICE_OUT_SPEAKER ≠ 0 ∨
        devices &&& AudioSystem.DEVICE_OUT_EARPIECE ≠ 0 ∨
        devices &&& AudioSystem.DEVICE_OUT_WIRED_HEADSET ≠ 0)) ∧
    sharedDownlinkSpec true ≠ sharedDownlinkSpec false ∧
    writesTo (sharedDownlinkControls.map Prod.fst)
        (setDefaultControls w AudioSystem.DEVICE_OUT_WIRED_HEADPHONE mode) =
      sharedDownlinkSpec false := by
  have key : ∀ d : Nat, d &&& 0x0000FFFF ≠ 0 →
      writesTo (sharedDownlinkControls.map Prod.fst) (setDefaultControls w d mode) =
      sharedDownlinkSpec (decide (d &&& AudioSystem.DEVICE_OUT_SPEAKER ≠ 0 ∨
        d &&& AudioSystem.DEVICE_OUT_EARPIECE ≠ 0 ∨
        d &&& AudioSystem.DEVICE_OUT_WIRED_HEADSET ≠ 0)) := by
    intro d hd
    have hs : writesTo (sharedDownlinkControls.map Prod.fst) (speakerControls d) = [] := by
      unfold speakerControls; split <;> decide
    have hh : writesTo (sharedDownlinkControls.map Prod.fst) (headsetControls d) = [] := by
      unfold headsetControls; split <;> decide
    have he : writesTo (sharedDownlinkControls.map Prod.fst) (earpieceControls d) = [] := by
      unfold earpieceControls; split <;> decide
    have hm : writesTo (sharedDownlinkControls.map Prod.fst) (micControls d) = [] := by
      unfold micControls; split
      · decide
      · split <;> decide
    have hu : writesTo (sharedDownlinkControls.map Prod.fst) (uplinkControls d) = [] := by
      unfold uplinkControls; split <;> decide
    have hin : writesTo (sharedDownlinkControls.map Prod.fst)
        (if d >>> 16 ≠ 0 then micControls d ++ uplinkControls d else []) = [] := by
      split
      · rw [writesTo_append, hm, hu]; rfl
      · rfl
    have hd' : writesTo (sharedDownlinkControls.map Prod.fst) (downlinkControls d) =
        sharedDownlinkSpec (decide (d &&& AudioSystem.DEVICE_OUT_SPEAKER ≠ 0 ∨
          d &&& AudioSystem.DEVICE_OUT_EARPIECE ≠ 0 ∨
          d &&& AudioSystem.DEVICE_OUT_WIRED_HEADSET ≠ 0)) := by
      unfold downlinkControls
      split
      · rename_i hc
        rw [decide_eq_true hc]; decide
      · rename_i hc
        rw [decide_eq_false hc]; decide
    unfold setDefaultControls
    simp only [applyControls_snd]
    rw [if_pos hd, writesTo_append, writesTo_append, writesTo_modem, hin, writesTo_append,
      writesTo_append, writesTo_append, hs, hh, he, hd']
    simp
  refine ⟨key devices hout, by decide, ?_⟩
  rw [key _ (by decide)]
  rfl

theorem shared_downlink_iff_any_leg_witness :
    writesTo (sharedDownlinkControls.map Prod.fst)
        (setDefaultControls calmWorld AudioSystem.DEVICE_OUT_SPEAKER 0) =
      sharedDownlinkSpec true ∧
    writesTo (sharedDownlinkControls.map Prod.fst)
        (setDefaultControls calmWorld AudioSystem.DEVICE_OUT_WIRED_HEADPHONE 0) =
      sharedDownlinkSpec false :=
  ⟨(shared_downlink_iff_any_leg calmWorld AudioSystem.DEVICE_OUT_SPEAKER 0 (by decide)).1,
   (shared_downlink_iff_any_leg calmWorld AudioSystem.DEVICE_OUT_WIRED_HEADPHONE 0
      (by decide)).1⟩

/-- C9: when the mask has a bit in the high 16 bits, the default strategy
writes the capture controls once each from a single microphone source: the
built-in mic (`Main Mic` / `Sub Mic`) when its bit is set, also next to the
wired-headset-mic bit; else the wired headset mic (`Headset Mic` on both
routes) when its bit is set; else `Off` on both routes with preamplifier and
capture volume `0`, third argument `-1`.  The uplink chain is written with its
enabled values exactly when one of the two mic bits is set, and with `None` and
`0` otherwise.  For the wired-headset-mic bit alone: `Headset Mic` on both
routes and the uplink chain enabled. -/
theorem input_leg_selects_one_mic (w : World) (devices : Nat) (mode : Int)
    (hin : devices >>> 16 ≠ 0) :
    writesTo captureControlNames (setDefaultControls w devices mode) =
      (if devices &&& AudioSystem.DEVICE_IN_BUILTIN_MIC ≠ 0 then
        [ Call.control_set_str "Analog Left Capture Route" "Main Mic",
          Call.control_set_str "Analog Right Capture Route" "Sub Mic",
          Call.control_set "Capture Preamplifier Volume" 1 none,
          Call.control_set "Capture Volume" 4 none ]
       else if devices &&& AudioSystem.DEVICE_IN_WIRED_HEADSET ≠ 0 then
        [ Call.control_set_str "Analog Left Capture Route" "Headset Mic",
          Call.control_set_str "Analog Right Capture Route" "Headset Mic",
          Call.control_set "Capture Preamplifier Volume" 1 none,
          Call.control_set "Capture Volume" 4 none ]
       else
        [ Call.control_set_str "Analog Left Capture Route" "Off",
          Call.control_set_str "Analog Right Capture Route" "Off",
          Call.control_set "Capture Preamplifier Volume" 0 (some (-1)),
          Call.control_set "Capture Volume" 0 (some (-1)) ]) ∧
    writesTo uplinkControlNames (setDefaultControls w devices mode) =
      (if devices &&& AudioSystem.DEVICE_IN_BUILTIN_MIC ≠ 0 ∨
          devices &&& AudioSystem.DEVICE_IN_WIRED_HEADSET ≠ 0 then
        [ Call.control_set "AMIC_UL PDM Switch" 1 none,
          Call.control_set_str "MUX_UL00" "AMic1",
          Call.control_set_str "MUX_UL01" "AMic0",
          Call.control_set_str "MUX_UL10" "AMic1",
          Call.control_set_str "MUX_UL11" "AMic0",
          Call.control_set "Voice Capture Mixer Capture" 1 none,
          Call.control_set_str "MUX_VX0" "AMic1",
          Call.control_set_str "MUX_VX1" "AMic0" ]
       else
        [ Call.control_set "AMIC_UL PDM Switch" 0 (some 0),
          Call.control_set_str "MUX_UL00" "None",
          Call.control_set_str "MUX_UL01" "None",
          Call.control_set_str "MUX_UL10" "None",
          Call.control_set_str "MUX_UL11" "None",
          Call.control_set "Voice Capture Mixer Capture" 0 (some 0),
          Call.control_set_str "MUX_VX0" "None",
          Call.control_set_str "MUX_VX1" "None" ]) ∧
    writesTo (captureControlNames ++ uplinkControlNames)
        (setDefaultControls w AudioSystem.DEVICE_IN_WIRED_HEADSET mode) =
      [ Call.control_set_str "Analog Left Capture Route" "Headset Mic",
        Call.control_set_str "Analog Right Capture Route" "Headset Mic",
        Call.control_set "Capture Preamplifier Volume" 1 none,
        Call.control_set "Capture Volume" 4 none,
        Call.control_set "AMIC_UL PDM Switch" 1 none,
        Call.control_set_str "MUX_UL00" "AMic1",
        Call.control_set_str "MUX_UL01" "AMic0",
        Call.control_set_str "MUX_UL10" "AMic1",
        Call.control_set_str "MUX_UL11" "AMic0",
        Call.control_set "Voice Capture Mixer Capture" 1 none,
        Call.control_set_str "MUX_VX0" "AMic1",
        Call.control_set_str "MUX_VX1" "AMic0" ] := by
  have outleg : ∀ (names : List String) (d : Nat),
      names = captureControlNames ∨ names = uplinkControlNames →
      writesTo names (if d &&& 0x0000FFFF ≠ 0 then
        speakerControls d ++ headsetControls d ++ earpieceControls d ++ downlinkControls d
        else []) = [] := by
    intro names d hn
    have hs : writesTo names (speakerControls d) = [] := by
      unfold speakerControls; rcases hn with rfl | rfl <;> split <;> decide
    have hh : writesTo names (headsetControls d) = [] := by
      unfold headsetControls; rcases hn with rfl | rfl <;> split <;> decide
    have he : writesTo names (earpieceControls d) = [] := by
      unfold earpieceControls; rcases hn with rfl | rfl <;> split <;> decide
    have hd : writesTo names (downlinkControls d) = [] := by
      unfold downlinkControls; rcases hn with rfl | rfl <;> split <;> decide
    split
    · rw [writesTo_append, writesTo_append, writesTo_append, hs, hh, he, hd]; rfl
    · rfl
  have micC : writesTo captureControlNames (micControls devices) = micControls devices := by
    unfold micControls; split
    · decide
    · split <;> decide
  have micU : writesTo uplinkControlNames (micControls devices) = [] := by
    unfold micControls; split
    · decide
    · split <;> decide
  have upC : writesTo captureControlNames (uplinkControls devices) = [] := by
    unfold uplinkControls; split <;> decide
  have upU : writesTo uplinkControlNames (uplinkControls devices) = uplinkControls devices := by
    unfold uplinkControls; split <;> decide
  refine ⟨?_, ?_, ?_⟩
  · unfold setDefaultControls
    simp only [applyControls_snd]
    rw [if_pos hin, writesTo_append, writesTo_append, writesTo_modem,
      outleg _ _ (Or.inl rfl), writesTo_append, micC, upC]
    simp only [List.nil_append, List.append_nil]
    rfl
  · unfold setDefaultControls
    simp only [applyControls_snd]
    rw [if_pos hin, writesTo_append, writesTo_append, writesTo_modem,
      outleg _ _ (Or.inr rfl), writesTo_append, micU, upU]
    simp only [List.nil_append]
    rfl
  · unfold setDefaultControls
    simp only [applyControls_snd]
    have e1 : ¬ (AudioSystem.DEVICE_IN_WIRED_HEADSET &&& 0x0000FFFF ≠ 0) := by decide
    have e2 : AudioSystem.DEVICE_IN_WIRED_HEADSET >>> 16 ≠ 0 := by decide
    rw [if_neg e1, if_pos e2, writesTo_append, writesTo_append, writesTo_modem]
    decide

theorem input_leg_selects_one_mic_witness :
    writesTo captureControlNames
        (setDefaultControls calmWorld
          (AudioSystem.DEVICE_IN_BUILTIN_MIC ||| AudioSystem.DEVICE_IN_WIRED_HEADSET) 0) =
      [ Call.control_set_str "Analog Left Capture Route" "Main Mic",
        Call.control_set_str "Analog Right Capture Route" "Sub Mic",
        Call.control_set "Capture Preamplifier Volume" 1 none,
        Call.control_set "Capture Volume" 4 none ] :=
  (input_leg_selects_one_mic calmWorld
    (AudioSystem.DEVICE_IN_BUILTIN_MIC ||| AudioSystem.DEVICE_IN_WIRED_HEADSET) 0
    (by decide)).1

/-! ## Failure of hardware negotiation (C10) -/

/-- C10 as stated fails when the failing step is the final commit: the handle
of the default output profile enters with `bufferSize = 4096` and
`latency = 200000`, the commit is refused with `-22`, and the handle leaves with
the sizes read back, `8192` and `185759`. -/
theorem hw_commit_failure_overwrites_fields :
    (setHardwareParams commitFailsWorld { defaultOutHandle with handle := some 7 }).status
      = -22 ∧
    ({ defaultOutHandle with handle := some 7 } : alsa_handle_t).bufferSize = 4096 ∧
    ({ defaultOutHandle with handle := some 7 } : alsa_handle_t).latency = 200000 ∧
    (setHardwareParams commitFailsWorld
      { defaultOutHandle with handle := some 7 }).handle.bufferSize = 8192 ∧
    (setHardwareParams commitFailsWorld
      { defaultOutHandle with handle := some 7 }).handle.latency = 185759 := by
  decide

theorem hwDone_kept (h : alsa_handle_t) (e : status_t) (cs : List Call) (he : e < 0) :
    hwKept h (hwDone e h cs) :=
  fun _ => ⟨he, rfl⟩

theorem hwCommit_kept (w : World) (h : alsa_handle_t) (b l : Nat) (cs : List Call) :
    hwKept h (hwCommit w h b l cs) := by
  intro hn
  exact absurd (by simp [hwCommit, hwDone]) hn

theorem hwPeriodFallback_kept (w : World) (h : alsa_handle_t) (l : Nat) (cs : List Call) :
    hwKept h (hwPeriodFallback w h l cs) := by
  unfold hwPeriodFallback
  dsimp only
  repeat' first
    | exact hwDone_kept _ _ _ (by assumption)
    | exact hwCommit_kept _ _ _ _ _
    | split

theorem hwBufferTimeOk_kept (w : World) (h : alsa_handle_t) (cs : List Call) :
    hwKept h (hwBufferTimeOk w h cs) := by
  unfold hwBufferTimeOk
  dsimp only
  repeat' first
    | exact hwDone_kept _ _ _ (by assumption)
    | exact hwCommit_kept _ _ _ _ _
    | split

/-- Hardware negotiation either issues the commit or leaves the handle alone. -/
theorem setHardwareParams_kept (w : World) (h : alsa_handle_t) :
    hwKept h (setHardwareParams w h) := by
  have hinit : hwKept h
      ⟨NO_INIT, h, [Call.snd_pcm_hw_params_malloc, Call.LOG_ALWAYS_FATAL]⟩ :=
    fun _ => ⟨show NO_INIT < 0 by decide, rfl⟩
  unfold setHardwareParams
  dsimp only
  repeat' first
    | exact hinit
    | exact hwDone_kept _ _ _ (by assumption)
    | exact hwPeriodFallback_kept _ _ _ _
    | exact hwBufferTimeOk_kept _ _ _
    | split

/-- C10, amended: when hardware negotiation stops at a step before the final
commit (the commit is not issued), it returns an error and the handle leaves
as it entered; in particular `bufferSize` and `latency` have the values they
had before the call. -/
theorem hw_error_before_commit_keeps_fields (w : World) (h : alsa_handle_t)
    (hpre : Call.snd_pcm_hw_params h.handle ∉ (setHardwareParams w h).calls) :
    (setHardwareParams w h).status < 0 ∧
    (setHardwareParams w h).handle.bufferSize = h.bufferSize ∧
    (setHardwareParams w h).handle.latency = h.latency ∧
    (setHardwareParams w h).handle = h := by
  obtain ⟨hs, hh⟩ := setHardwareParams_kept w h hpre
  exact ⟨hs, by rw [hh], by rw [hh], hh⟩

theorem hw_error_before_commit_keeps_fields_witness :
    (setHardwareParams channelsFailWorld { defaultOutHandle with handle := some 7 }).status
      = -22 ∧
    (setHardwareParams channelsFailWorld
      { defaultOutHandle with handle := some 7 }).handle.bufferSize = 4096 ∧
    (setHardwareParams channelsFailWorld
      { defaultOutHandle with handle := some 7 }).handle.latency = 200000 :=
  have h := hw_error_before_commit_keeps_fields channelsFailWorld
    { defaultOutHandle with handle := some 7 } (by decide)
  ⟨by decide, h.2.1, h.2.2.1⟩

/-! ## Failures inside `s_open` (C11, C12) -/

theorem closeCalls_not_negotiation (h : alsa_handle_t) :
    (closeCalls h).all (fun c => !c.isHardwareNegotiation && !c.isSoftwareNegotiation) = true := by
  unfold closeCalls
  cases h.handle <;> rfl

theorem isControl_not_negotiation (c : Call) (h : c.isControl = true) :
    (!c.isHardwareNegotiation && !c.isSoftwareNegotiation) = true := by
  cases c <;> simp_all [Call.isControl, Call.isHardwareNegotiation, Call.isSoftwareNegotiation]

/-- Up to and including `snd_pcm_open`, `s_open` issues no negotiation call. -/
theorem openPrefix_not_negotiation (w : World) (h : alsa_handle_t) (d : Nat) (m : Int) :
    ∀ c ∈ openPrefix w h d m, c.isHardwareNegotiation = false ∧ c.isSoftwareNegotiation = false := by
  intro c hc
  have hclose := closeCalls_not_negotiation h
  have hctl := strategy_isControl w h.modPrivate d m
  rw [List.all_eq_true] at hclose hctl
  unfold openPrefix at hc
  rw [s_close_calls] at hc
  simp only [List.mem_append, List.mem_cons, List.mem_singleton, List.not_mem_nil,
    or_false] at hc
  have conv : (!c.isHardwareNegotiation && !c.isSoftwareNegotiation) = true →
      c.isHardwareNegotiation = false ∧ c.isSoftwareNegotiation = false := by
    intro hh; simpa using hh
  rcases hc with (hc | hc | hc) | hc
  · exact conv (hclose c hc)
  · subst hc; exact ⟨rfl, rfl⟩
  · exact conv (isControl_not_negotiation c (hctl c hc))
  · subst hc; exact ⟨rfl, rfl⟩

/-- Software negotiation, when attempted, starts by allocating its parameters. -/
theorem setSoftwareParams_attempted (w : World) (h : alsa_handle_t) :
    Call.snd_pcm_sw_params_malloc ∈ (setSoftwareParams w h).calls := by
  unfold setSoftwareParams
  simp only [swDone]
  repeat' first
    | simp
    | split

/-- Negotiation neither drains nor closes a transport. -/
theorem negotiationCalls_keep_transport (w : World) (h : alsa_handle_t) (pcm : Nat) :
    Call.snd_pcm_drain pcm ∉ negotiationCalls w h ∧
    Call.snd_pcm_close pcm ∉ negotiationCalls w h := by
  have hhw := setHardwareParams_calls w h
  have hsw := setSoftwareParams_calls w (setHardwareParams w h).handle
  rw [List.all_eq_true] at hhw hsw
  have none_of : ∀ c : Call, c.isHardwareNegotiation = false → c.isSoftwareNegotiation = false →
      c ∉ negotiationCalls w h := by
    intro c h1 h2 hc
    unfold negotiationCalls at hc
    rcases List.mem_append.1 hc with hc | hc
    · have := hhw c hc
      rw [h1] at this
      exact absurd this (by decide)
    · split at hc
      · have := hsw c hc
        rw [h2] at this
        exact absurd this (by decide)
      · exact absurd hc (List.not_mem_nil c)
  exact ⟨none_of _ rfl rfl, none_of _ rfl rfl⟩

/-- C11: when the transport opens but negotiation fails, `s_open` returns the
error of the failing negotiation and leaves the transport pointer stored by
`snd_pcm_open` in the handle; after `snd_pcm_open` it issues negotiation calls
only, so the new transport is neither drained nor closed; and when hardware
negotiation does not return `NO_ERROR`, software negotiation, which would start
with `snd_pcm_sw_params_malloc`, is not attempted. -/
theorem open_negotiation_failure (w : World) (h : alsa_handle_t) (d : Nat) (m : Int)
    (hopen : ¬ (w.snd_pcm_open (deviceName h d m) (direction h) 0).1 < 0) :
    ((setHardwareParams w (openedHandle h d m
        (some (w.snd_pcm_open (deviceName h d m) (direction h) 0).2))).status ≠ NO_ERROR →
      (s_open w h d m).status =
        (setHardwareParams w (openedHandle h d m
          (some (w.snd_pcm_open (deviceName h d m) (direction h) 0).2))).status ∧
      (s_open w h d m).calls = openPrefix w h d m ++
        (setHardwareParams w (openedHandle h d m
          (some (w.snd_pcm_open (deviceName h d m) (direction h) 0).2))).calls ∧
      Call.snd_pcm_sw_params_malloc ∉ (s_open w h d m).calls) ∧
    ((setHardwareParams w (openedHandle h d m
        (some (w.snd_pcm_open (deviceName h d m) (direction h) 0).2))).status = NO_ERROR →
      (s_open w h d m).status =
        (setSoftwareParams w (setHardwareParams w (openedHandle h d m
          (some (w.snd_pcm_open (deviceName h d m) (direction h) 0).2))).handle).status) ∧
    (s_open w h d m).handle.handle =
      some (w.snd_pcm_open (deviceName h d m) (direction h) 0).2 ∧
    (s_open w h d m).calls = openPrefix w h d m ++ negotiationCalls w (openedHandle h d m
        (some (w.snd_pcm_open (deviceName h d m) (direction h) 0).2)) ∧
    (∀ pcm, Call.snd_pcm_drain pcm ∉ negotiationCalls w (openedHandle h d m
        (some (w.snd_pcm_open (deviceName h d m) (direction h) 0).2)) ∧
      Call.snd_pcm_close pcm ∉ negotiationCalls w (openedHandle h d m
        (some (w.snd_pcm_open (deviceName h d m) (direction h) 0).2))) ∧
    (∀ x, Call.snd_pcm_sw_params_malloc ∈ (setSoftwareParams w x).calls) := by
  obtain ⟨b, l, hb⟩ := setHardwareParams_handle w
    (openedHandle h d m (some (w.snd_pcm_open (deviceName h d m) (direction h) 0).2))
  have hhw := setHardwareParams_calls w
    (openedHandle h d m (some (w.snd_pcm_open (deviceName h d m) (direction h) 0).2))
  rw [List.all_eq_true] at hhw
  refine ⟨?_, ?_, ?_, ?_, fun pcm => negotiationCalls_keep_transport w _ pcm,
    setSoftwareParams_attempted w⟩
  · intro hfail
    rw [s_open_eq, if_neg hopen, if_neg hfail]
    refine ⟨rfl, rfl, ?_⟩
    intro hmem
    rcases List.mem_append.1 hmem with hc | hc
    · have := (openPrefix_not_negotiation w h d m _ hc).2
      exact absurd this (by decide)
    · have := hhw _ hc
      exact absurd this (by decide)
  · intro hok
    rw [s_open_eq, if_neg hopen, if_pos hok]
  · rw [s_open_eq, if_neg hopen]
    split
    · simp only [setSoftwareParams_handle, hb]
      rfl
    · simp only [hb]
      rfl
  · rw [s_open_eq, if_neg hopen]
    unfold negotiationCalls
    split <;> simp

theorem open_negotiation_failure_witness :
    (s_open channelsFailWorld defaultOutHandle 2 0).status = -22 ∧
    (s_open channelsFailWorld defaultOutHandle 2 0).handle.handle = some 7 ∧
    Call.snd_pcm_sw_params_malloc ∉ (s_open channelsFailWorld defaultOutHandle 2 0).calls ∧
    (s_open swCommitFailsWorld defaultOutHandle 2 0).status = -22 ∧
    (s_open swCommitFailsWorld defaultOutHandle 2 0).handle.handle = some 7 :=
  have h1 := open_negotiation_failure channelsFailWorld defaultOutHandle 2 0 (by decide)
  have h2 := open_negotiation_failure swCommitFailsWorld defaultOutHandle 2 0 (by decide)
  ⟨(h1.1 (by decide)).1.trans (by decide), h1.2.2.1, (h1.1 (by decide)).2.2,
    (h2.2.1 (by decide)).trans (by decide), h2.2.2.1⟩

/-- C12: when the transport fails to open, `s_open` returns `NO_INIT`, issues
no hardware or software negotiation call (it stops at `snd_pcm_open`), and
leaves the handle closed, whether it was open or closed before. -/
theorem open_failure_leaves_closed (w : World) (h : alsa_handle_t) (d : Nat) (m : Int)
    (hfail : (w.snd_pcm_open (deviceName h d m) (direction h) 0).1 < 0) :
    (s_open w h d m).status = NO_INIT ∧
    (s_open w h d m).handle.handle = none ∧
    (s_open w h d m).calls = openPrefix w h d m ∧
    (∀ c ∈ (s_open w h d m).calls,
      c.isHardwareNegotiation = false ∧ c.isSoftwareNegotiation = false) := by
  rw [s_open_eq, if_pos hfail]
  exact ⟨rfl, rfl, rfl, openPrefix_not_negotiation w h d m⟩

theorem open_failure_leaves_closed_witness :
    (s_open openFailsWorld { defaultOutHandle with handle := some 3 } 2 0).status = NO_INIT ∧
    (s_open openFailsWorld { defaultOutHandle with handle := some 3 } 2 0).handle.handle
      = none :=
  have h := open_failure_leaves_closed openFailsWorld
    { defaultOutHandle with handle := some 3 } 2 0 (by decide)
  ⟨h.1, h.2.1⟩

/-! ## Name and direction resolution (C13, C14) -/

theorem land_eq_zero_of_subset (d mask other : Nat) (hsub : d &&& mask = d)
    (hdisj : mask &&& other = 0) : d &&& other = 0 := by
  rw [← hsub, Nat.land_assoc, hdisj]
  simp

/-- The name resolved for a non-empty part `d` of a mask, given which of the
three special masks the mask lies in or avoids. -/
theorem deviceName_of_subset (h : alsa_handle_t) (mode : Int) (mask d : Nat)
    (hd : d ≠ 0) (hsub : d &&& mask = d) :
    (mask &&& OMAP4_OUT_SCO = mask ∨ mask &&& OMAP4_IN_SCO = mask →
      deviceName h d mode = BLUETOOTH_SCO_DEVICE) ∧
    (mask &&& OMAP4_OUT_SCO = 0 → mask &&& OMAP4_IN_SCO = 0 → mask &&& OMAP4_OUT_FM = mask →
      deviceName h d mode = FM_TRANSMIT_DEVICE) ∧
    (mask &&& OMAP4_OUT_SCO = 0 → mask &&& OMAP4_IN_SCO = 0 → mask &&& OMAP4_OUT_FM = 0 →
      mask &&& OMAP4_OUT_HDMI = mask → deviceName h d mode = HDMI_DEVICE) ∧
    (mask &&& OMAP4_OUT_SCO = 0 → mask &&& OMAP4_IN_SCO = 0 → mask &&& OMAP4_OUT_FM = 0 →
      mask &&& OMAP4_OUT_HDMI = 0 → deviceName h d mode = MM_DEFAULT_DEVICE) := by
  have inside : ∀ other : Nat, mask &&& other = mask → d &&& other ≠ 0 := by
    intro other ho
    have : d &&& other = d := by
      rw [← hsub, Nat.land_assoc, ho]
    rw [this]; exact hd
  have outside : ∀ other : Nat, mask &&& other = 0 → d &&& other = 0 :=
    fun other ho => land_eq_zero_of_subset d mask other hsub ho
  refine ⟨?_, ?_, ?_, ?_⟩
  · intro hs
    unfold deviceName
    rw [if_pos]
    rcases hs with hs | hs
    · exact Or.inl (inside _ hs)
    · exact Or.inr (inside _ hs)
  · intro h1 h2 h3
    unfold deviceName
    rw [if_neg (by simp [outside _ h1, outside _ h2]), if_pos (inside _ h3)]
  · intro h1 h2 h3 h4
    unfold deviceName
    rw [if_neg (by simp [outside _ h1, outside _ h2]), if_neg (by simp [outside _ h3]),
      if_pos (inside _ h4)]
  · intro h1 h2 h3 h4
    unfold deviceName
    rw [if_neg (by simp [outside _ h1, outside _ h2]), if_neg (by simp [outside _ h3]),
      if_neg (by simp [outside _ h4])]

/-- C13 as stated fails on a capture handle: the handle of the default input
profile has direction capture, the mask `0x400` has no SCO bit, and yet the
name resolved is the HDMI device, not the default device. -/
theorem deviceName_capture_handle_hdmi :
    direction defaultInHandle = snd_pcm_stream_t.SND_PCM_STREAM_CAPTURE ∧
    AudioSystem.DEVICE_OUT_AUX_DIGITAL &&& OMAP4_OUT_SCO = 0 ∧
    AudioSystem.DEVICE_OUT_AUX_DIGITAL &&& OMAP4_IN_SCO = 0 ∧
    deviceName defaultInHandle AudioSystem.DEVICE_OUT_AUX_DIGITAL 0 = "plughw:0,7" ∧
    deviceName defaultInHandle AudioSystem.DEVICE_OUT_AUX_DIGITAL 0 ≠ MM_DEFAULT_DEVICE := by
  decide

/-- C13, amended: `deviceName` is total and follows one precedence whatever the
handle and its direction: the SCO device if the mask has an output or input SCO
bit, else the FM device if it has an FM bit, else the HDMI device if it has the
HDMI bit, else the default device.  On a mask without low-word bits the FM and
HDMI tests cannot fire: the name is the SCO device if the input SCO bit is set
and `plughw:0,0` otherwise.  For every entry of the table and every non-empty
`d` inside its mask, the name resolved for `d` is the name of the entry's
class. -/
theorem deviceName_precedence (h : alsa_handle_t) (device : Nat) (mode : Int) :
    deviceName h device mode =
      (if device &&& OMAP4_OUT_SCO ≠ 0 ∨ device &&& OMAP4_IN_SCO ≠ 0 then "hw:0,2"
       else if device &&& OMAP4_OUT_FM ≠ 0 then "hw:0,2"
       else if device &&& OMAP4_OUT_HDMI ≠ 0 then "plughw:0,7"
       else "plughw:0,0") ∧
    (∀ (h2 : alsa_handle_t) (mode2 : Int),
      deviceName h2 device mode2 = deviceName h device mode) ∧
    (device &&& 0x0000FFFF = 0 →
      deviceName h device mode =
        (if device &&& OMAP4_IN_SCO ≠ 0 then "hw:0,2" else "plughw:0,0")) ∧
    (∀ p ∈ _defaults.zip profileDeviceNames, ∀ d : Nat, d ≠ 0 → d &&& p.1.devices = d →
      deviceName h d mode = p.2) := by
  refine ⟨rfl, fun _ _ => rfl, ?_, ?_⟩
  · intro hlow
    have low : ∀ other : Nat, 0x0000FFFF &&& other = other → device &&& other = 0 := by
      intro other ho
      rw [← ho, ← Nat.land_assoc, hlow]
      simp
    unfold deviceName
    rw [low OMAP4_OUT_SCO (by decide), low OMAP4_OUT_FM (by decide),
      low OMAP4_OUT_HDMI (by decide)]
    by_cases hs : device &&& OMAP4_IN_SCO ≠ 0
    · rw [if_pos (Or.inr hs), if_pos hs]; rfl
    · rw [if_neg (by simp [hs]), if_neg (by simp), if_neg (by simp), if_neg hs]; rfl
  · intro p hp d hd hsub
    have hp' : p = (_defaults.get ⟨0, by decide⟩, BLUETOOTH_SCO_DEVICE) ∨
        p = (_defaults.get ⟨1, by decide⟩, FM_TRANSMIT_DEVICE) ∨
        p = (_defaults.get ⟨2, by decide⟩, HDMI_DEVICE) ∨
        p = (_defaults.get ⟨3, by decide⟩, MM_DEFAULT_DEVICE) ∨
        p = (_defaults.get ⟨4, by decide⟩, BLUETOOTH_SCO_DEVICE) ∨
        p = (_defaults.get ⟨5, by decide⟩, MM_DEFAULT_DEVICE) := by
      simpa [_defaults, profileDeviceNames] using hp
    rcases hp' with rfl | rfl | rfl | rfl | rfl | rfl
    · exact (deviceName_of_subset h mode _ d hd hsub).1 (Or.inl (by decide))
    · exact (deviceName_of_subset h mode _ d hd hsub).2.1 (by decide) (by decide) (by decide)
    · exact (deviceName_of_subset h mode _ d hd hsub).2.2.1 (by decide) (by decide)
        (by decide) (by decide)
    · exact (deviceName_of_subset h mode _ d hd hsub).2.2.2 (by decide) (by decide)
        (by decide) (by decide)
    · exact (deviceName_of_subset h mode _ d hd hsub).1 (Or.inr (by decide))
    · exact (deviceName_of_subset h mode _ d hd hsub).2.2.2 (by decide) (by decide)
        (by decide) (by decide)

theorem deviceName_precedence_witness :
    deviceName defaultInHandle AudioSystem.DEVICE_IN_BUILTIN_MIC 0 = "plughw:0,0" ∧
    deviceName defaultOutHandle DEVICE_OUT_FM_SPEAKER 0 = FM_TRANSMIT_DEVICE :=
  ⟨((deviceName_precedence defaultInHandle AudioSystem.DEVICE_IN_BUILTIN_MIC 0).2.2.1
      (by decide)).trans (by decide),
   (deviceName_precedence defaultOutHandle 0 0).2.2.2
      (_defaults.get ⟨1, by decide⟩, FM_TRANSMIT_DEVICE) (by decide) DEVICE_OUT_FM_SPEAKER
      (by decide) (by decide)⟩

/-- C14: the direction `direction` resolves for the handle of each entry of the
table, in table order: playback for the SCO, HDMI and default output profiles,
capture for both input profiles, and capture as well for the FM output profile,
whose mask `0x1800` shares no bit with `DEVICE_OUT_ALL`, whatever the other
fields of the handle. -/
theorem direction_by_profile (h : alsa_handle_t) :
    _defaults.map direction =
      [ snd_pcm_stream_t.SND_PCM_STREAM_PLAYBACK, snd_pcm_stream_t.SND_PCM_STREAM_CAPTURE,
        snd_pcm_stream_t.SND_PCM_STREAM_PLAYBACK, snd_pcm_stream_t.SND_PCM_STREAM_PLAYBACK,
        snd_pcm_stream_t.SND_PCM_STREAM_CAPTURE, snd_pcm_stream_t.SND_PCM_STREAM_CAPTURE ] ∧
    OMAP4_OUT_FM = 0x1800 ∧
    AudioSystem.DEVICE_OUT_ALL = 0x87FF ∧
    direction { h with devices := OMAP4_OUT_FM } = snd_pcm_stream_t.SND_PCM_STREAM_CAPTURE ∧
    direction { h with devices := OMAP4_OUT_SCO } = snd_pcm_stream_t.SND_PCM_STREAM_PLAYBACK ∧
    direction { h with devices := OMAP4_OUT_HDMI } = snd_pcm_stream_t.SND_PCM_STREAM_PLAYBACK ∧
    direction { h with devices := OMAP4_OUT_DEFAULT } =
      snd_pcm_stream_t.SND_PCM_STREAM_PLAYBACK ∧
    direction { h with devices := OMAP4_IN_SCO } = snd_pcm_stream_t.SND_PCM_STREAM_CAPTURE ∧
    direction { h with devices := OMAP4_IN_DEFAULT } =
      snd_pcm_stream_t.SND_PCM_STREAM_CAPTURE := by
  have hdir : ∀ mask : Nat, direction { h with devices := mask } =
      if mask &&& AudioSystem.DEVICE_OUT_ALL ≠ 0 then snd_pcm_stream_t.SND_PCM_STREAM_PLAYBACK
      else snd_pcm_stream_t.SND_PCM_STREAM_CAPTURE := fun _ => rfl
  refine ⟨by decide, by decide, by decide, ?_, ?_, ?_, ?_, ?_, ?_⟩ <;>
    (rw [hdir]; decide)

/-! ## Closing (C15) -/

/-- C15: on a closed handle `s_close` makes no call and returns `NO_ERROR`; on
an open handle it issues one drain followed by one close on the transport the
handle held and returns the status of the close; in both cases the handle
leaves with a null transport pointer, `curDev = 0`, `curMode = 0` and every
other field as it was; a second `s_close` makes no call, returns `NO_ERROR` and
leaves the handle as the first one left it. -/
theorem close_idempotent (w w2 : World) (h : alsa_handle_t) :
    (h.handle = none → (s_close w h).status = NO_ERROR ∧ (s_close w h).calls = []) ∧
    (∀ pcm, h.handle = some pcm →
      (s_close w h).status = w.snd_pcm_close pcm ∧
      (s_close w h).calls = [Call.snd_pcm_drain pcm, Call.snd_pcm_close pcm]) ∧
    (s_close w h).handle = { h with handle := none, curDev := 0, curMode := 0 } ∧
    s_close w2 (s_close w h).handle = ⟨NO_ERROR, (s_close w h).handle, []⟩ := by
  have closed : ∀ (v : World) (x : alsa_handle_t), x.handle = none →
      s_close v x = ⟨NO_ERROR, { x with handle := none, curDev := 0, curMode := 0 }, []⟩ := by
    intro v x hx
    unfold s_close
    rw [hx]
  refine ⟨?_, ?_, s_close_handle w h, ?_⟩
  · intro hn
    rw [closed w h hn]
    exact ⟨rfl, rfl⟩
  · intro pcm hp
    unfold s_close
    rw [hp]
    exact ⟨rfl, rfl⟩
  · rw [closed w2 (s_close w h).handle (by rw [s_close_handle])]
    simp only [s_close_handle]

theorem close_idempotent_witness :
    (s_close calmWorld { defaultOutHandle with handle := some 7, curDev := 2 }).calls =
      [Call.snd_pcm_drain 7, Call.snd_pcm_close 7] ∧
    (s_close calmWorld defaultOutHandle).calls = [] :=
  ⟨((close_idempotent calmWorld calmWorld
      { defaultOutHandle with handle := some 7, curDev := 2 }).2.1 7 rfl).2,
   ((close_idempotent calmWorld calmWorld defaultOutHandle).1 rfl).2⟩

/-! ## Status of a full reopen (C16) -/

/-- The last branch of `s_route`: taken on a closed handle, and on an open one
that serves none of the requested devices and is not already routed to them. -/
theorem s_route_reopen (w : World) (h : alsa_handle_t) (d : Nat) (m : Int) (hd : d ≠ 0)
    (hbranch : h.handle = none ∨
      (h.devices &&& d = 0 ∧ ¬ (h.curDev = d ∧ h.curMode = m))) :
    s_route w h d m =
      if w.AUDIO_MODEM_TI = true then
        ⟨w.voiceCallControls d m, (s_open w h d m).handle,
          (s_open w h d m).calls ++ [Call.voiceCallControls d m]⟩
      else s_open w h d m := by
  unfold s_route
  rw [if_neg hd]
  rcases hbranch with hn | ⟨hz, hc⟩
  · rw [if_neg (fun hc => hc.1 hn), if_neg (fun hc => hc.1 hn)]
  · rw [if_neg (fun hx => hc hx.2), if_neg (fun hx => hx.2 hz)]

/-- C16: the status `s_route` returns from its full-reopen branch, here on a
closed handle and a non-empty mask.  Built without the voice modem, it is the
status of `s_open`.  Built with the voice modem, it is the status of the
call-control hook, whatever `s_open` returned: when the transport fails to open
and the hook answers `0`, `s_open` returns `NO_INIT` and `s_route` returns
`NO_ERROR`. -/
theorem route_reopen_status (w : World) (h : alsa_handle_t) (d : Nat) (m : Int) :
    (s_route { w with AUDIO_MODEM_TI := false } { h with handle := none } (d + 1) m).status =
      (s_open { w with AUDIO_MODEM_TI := false } { h with handle := none } (d + 1) m).status ∧
    (s_route { w with AUDIO_MODEM_TI := true } { h with handle := none } (d + 1) m).status =
      w.voiceCallControls (d + 1) m ∧
    (s_open modemOpenFailsWorld defaultOutHandle 2 0).status = NO_INIT ∧
    (s_route modemOpenFailsWorld defaultOutHandle 2 0).status = NO_ERROR ∧
    (s_route modemOpenFailsWorld defaultOutHandle 2 0).calls =
      (s_open modemOpenFailsWorld defaultOutHandle 2 0).calls ++
        [Call.voiceCallControls 2 0] := by
  refine ⟨?_, ?_, by decide, by decide, by decide⟩
  · rw [s_route_reopen _ _ _ _ (Nat.succ_ne_zero d) (Or.inl rfl)]
    rfl
  · rw [s_route_reopen _ _ _ _ (Nat.succ_ne_zero d) (Or.inl rfl)]
    rfl

/-! ## Initialisation (C17, C18) -/

/-- The normalisation loop on a machine word, with enough fuel. -/
theorem normalizeLoop_eq (fuel n : Nat) (hn : n < 2 ^ WORD_BITS) (hfuel : WORD_BITS ≤ fuel) :
    normalizeLoop fuel n 1 = some (if n = 0 then 0 else 2 ^ Nat.log 2 n) := by
  have h := normalizeLoop_from fuel 0 n (by decide) (by simpa using hn) (by omega)
  simpa using h

theorem normalizeLoop_pow (fuel k : Nat) (hk : k < WORD_BITS) (hfuel : WORD_BITS ≤ fuel) :
    normalizeLoop fuel (2 ^ k) 1 = some (2 ^ k) := by
  rw [normalizeLoop_eq fuel (2 ^ k) (Nat.pow_lt_pow_right (by decide) hk) hfuel]
  have hne : (2 : Nat) ^ k ≠ 0 := by positivity
  rw [if_neg hne, Nat.log_pow (by decide)]

theorem normalizeLoop_of_bounds (fuel n k : Nat) (hk : k < WORD_BITS)
    (hfuel : WORD_BITS ≤ fuel) (hlo : 2 ^ k ≤ n) (hhi : n < 2 ^ (k + 1)) :
    normalizeLoop fuel n 1 = some (2 ^ k) := by
  have hn : n < 2 ^ WORD_BITS :=
    lt_of_lt_of_le hhi (Nat.pow_le_pow_right (by decide) (by omega))
  have hne : n ≠ 0 := by
    have : 0 < 2 ^ k := by positivity
    omega
  rw [normalizeLoop_eq fuel n hn hfuel, if_neg hne,
    Nat.log_eq_of_pow_le_of_lt_pow hlo hhi]

/-- C17: with fuel for its inner loops, `s_init` returns `NO_ERROR` and the six
handles of the table, in table order: each closed (null transport pointer,
`curDev = 0`, `curMode = 0`), each with the mask, format, channel count, sample
rate and latency of its table entry, with the module pointer, and with buffer
sizes `8192`, `8192`, `8192`, `4096`, `2048`, `2048`. -/
theorem init_builds_six_closed_handles (fuel module : Nat) (hfuel : WORD_BITS ≤ fuel) :
    s_init fuel module _defaults = some (NO_ERROR, initialisedHandles module) ∧
    (initialisedHandles module).length = 6 ∧
    (initialisedHandles module).map (fun x => x.devices) =
      [OMAP4_OUT_SCO, OMAP4_OUT_FM, OMAP4_OUT_HDMI, OMAP4_OUT_DEFAULT, OMAP4_IN_SCO,
        OMAP4_IN_DEFAULT] ∧
    (initialisedHandles module).map (fun x => x.bufferSize) =
      [8192, 8192, 8192, 4096, 2048, 2048] ∧
    (∀ x ∈ initialisedHandles module,
      x.handle = none ∧ x.curDev = 0 ∧ x.curMode = 0 ∧ x.module = module) ∧
    (initialisedHandles module).map
        (fun x => (x.devices, x.format, x.channels, x.sampleRate, x.latency, x.modPrivate)) =
      _defaults.map
        (fun x => (x.devices, x.format, x.channels, x.sampleRate, x.latency, x.modPrivate)) := by
  have n1 : normalizeLoop fuel (DEFAULT_SAMPLE_RATE / 5) 1 = some 8192 :=
    normalizeLoop_of_bounds fuel 8820 13 (by decide) hfuel (by norm_num) (by norm_num)
  have n2 : normalizeLoop fuel (DEFAULT_SAMPLE_RATE / 10) 1 = some 4096 :=
    normalizeLoop_of_bounds fuel 4410 12 (by decide) hfuel (by norm_num) (by norm_num)
  have n3 : normalizeLoop fuel 2048 1 = some 2048 :=
    normalizeLoop_of_bounds fuel 2048 11 (by decide) hfuel (by norm_num) (by norm_num)
  refine ⟨?_, rfl, rfl, rfl, ?_, rfl⟩
  · simp only [s_init, _defaults, initLoop, n1, n2, n3]
    rfl
  · intro x hx
    simp only [initialisedHandles, _defaults, List.zipWith_cons_cons, List.zipWith_nil_right,
      List.mem_cons, List.not_mem_nil, or_false] at hx
    rcases hx with rfl | rfl | rfl | rfl | rfl | rfl <;> exact ⟨rfl, rfl, rfl, rfl⟩

theorem init_builds_six_closed_handles_witness :
    s_init 32 5 _defaults = some (NO_ERROR, initialisedHandles 5) :=
  (init_builds_six_closed_handles 32 5 (by decide)).1

/-- C18: normalisation is idempotent on machine words: the loop returns some
`r ≤ n`, and run on `r` it returns `r` again; hence `s_init` run a second time,
over the table its first run normalised in place, returns the same handles
(with the module pointer of the second call), in particular the same buffer
sizes. -/
theorem normalize_idempotent (n fuel module module2 : Nat) (hn : n < 2 ^ WORD_BITS)
    (hfuel : WORD_BITS ≤ fuel) :
    (∃ r, normalizeLoop fuel n 1 = some r ∧ r ≤ n ∧ normalizeLoop fuel r 1 = some r) ∧
    (s_init fuel module _defaults).bind (fun first => s_init fuel module2 first.2) =
      some (NO_ERROR, initialisedHandles module2) ∧
    (initialisedHandles module2).map (fun x => x.bufferSize) =
      (initialisedHandles module).map (fun x => x.bufferSize) := by
  refine ⟨?_, ?_, rfl⟩
  · by_cases h0 : n = 0
    · refine ⟨0, ?_, by omega, ?_⟩
      · rw [normalizeLoop_eq fuel n hn hfuel, if_pos h0]
      · rw [normalizeLoop_eq fuel 0 (by decide) hfuel, if_pos rfl]
    · have hle : 2 ^ Nat.log 2 n ≤ n := Nat.pow_log_le_self 2 h0
      have hk : Nat.log 2 n < WORD_BITS := by
        by_contra hcon
        have : 2 ^ WORD_BITS ≤ 2 ^ Nat.log 2 n :=
          Nat.pow_le_pow_right (by decide) (by omega)
        omega
      refine ⟨2 ^ Nat.log 2 n, ?_, hle, normalizeLoop_pow fuel _ hk hfuel⟩
      rw [normalizeLoop_eq fuel n hn hfuel, if_neg h0]
  · have n13 : normalizeLoop fuel 8192 1 = some 8192 :=
      normalizeLoop_pow fuel 13 (by decide) hfuel
    have n12 : normalizeLoop fuel 4096 1 = some 4096 :=
      normalizeLoop_pow fuel 12 (by decide) hfuel
    have n11 : normalizeLoop fuel 2048 1 = some 2048 :=
      normalizeLoop_pow fuel 11 (by decide) hfuel
    have n1 : normalizeLoop fuel (DEFAULT_SAMPLE_RATE / 5) 1 = some 8192 :=
      normalizeLoop_of_bounds fuel 8820 13 (by decide) hfuel (by norm_num) (by norm_num)
    have n2 : normalizeLoop fuel (DEFAULT_SAMPLE_RATE / 10) 1 = some 4096 :=
      normalizeLoop_of_bounds fuel 4410 12 (by decide) hfuel (by norm_num) (by norm_num)
    have first : s_init fuel module _defaults = some (NO_ERROR, initialisedHandles module) := by
      simp only [s_init, _defaults, initLoop, n1, n2, n11]
      rfl
    rw [first]
    simp only [Option.some_bind, s_init, initialisedHandles, _defaults,
      List.zipWith_cons_cons, List.zipWith_nil_right, initLoop, n13, n12, n11]

theorem normalize_idempotent_witness :
    (∃ r, normalizeLoop 32 8820 1 = some r ∧ r ≤ 8820 ∧ normalizeLoop 32 r 1 = some r) ∧
    (s_init 32 5 _defaults).bind (fun first => s_init 32 6 first.2) =
      some (NO_ERROR, initialisedHandles 6) :=
  have h := normalize_idempotent 8820 32 5 6 (by decide) (by decide)
  ⟨h.1, h.2.1⟩

/-! ## Best-effort control programming (C19) -/

/-- C19: the calls the default strategy makes, for a mask and a mode, do not
depend on what the mixer answers to any `control.set`, nor on what the voice
modem answers: replacing the answers of a world by any others leaves the
sequence unchanged, so a failing set never stops the settings after it. -/
theorem default_strategy_best_effort (w : World) (devices : Nat) (mode : Int)
    (set_num : String → Nat → Option Int → status_t) (set_str : String → String → status_t)
    (modem : Nat → Int → status_t) :
    setDefaultControls
        { w with control_set := set_num, control_set_str := set_str,
                 voiceCallControls := modem } devices mode =
      setDefaultControls w devices mode ∧
    (∀ cs : List Call,
      (applyControls { w with control_set := set_num, control_set_str := set_str } cs).2 = cs ∧
      (applyControls { w with control_set := set_num, control_set_str := set_str } cs).1 =
        cs.map (ALSAControl.set
          { w with control_set := set_num, control_set_str := set_str })) ∧
    (setDefaultControls
        { w with AUDIO_MODEM_TI := false, control_set := fun _ _ _ => -1,
                 control_set_str := fun _ _ => -1 }
        AudioSystem.DEVICE_OUT_SPEAKER 0).length = 22 ∧
    (setDefaultControls
        { w with AUDIO_MODEM_TI := false, control_set := fun _ _ _ => -1,
                 control_set_str := fun _ _ => -1 }
        AudioSystem.DEVICE_OUT_SPEAKER 0).getLast? =
      some (Call.control_set "DL2 Mixer Voice" 1 none) := by
  exact ⟨rfl, fun _ => ⟨rfl, rfl⟩, rfl, rfl⟩

/-! ## Abort at the first failing step of hardware negotiation (C20) -/

/-- When `runSteps` reports a status, it stopped at the first aborting step
with a negative status, and issued nothing after it. -/
theorem runSteps_stops_at_first_failure (steps : List HwStep) (e : Int)
    (he : (runSteps steps).2 = some e) :
    ∃ pre s post, steps = pre ++ s :: post ∧ s.aborts = true ∧ s.status = e ∧ e < 0 ∧
      (∀ x ∈ pre, ¬ (x.aborts = true ∧ x.status < 0)) ∧
      (runSteps steps).1 = (pre ++ [s]).map HwStep.call := by
  induction steps with
  | nil => simp [runSteps] at he
  | cons s rest ih =>
    by_cases hs : s.aborts = true ∧ s.status < 0
    · refine ⟨[], s, rest, rfl, hs.1, ?_, ?_, ?_, ?_⟩
      · simpa [runSteps, hs] using he
      · have : s.status = e := by simpa [runSteps, hs] using he
        rw [← this]; exact hs.2
      · intro x hx; exact absurd hx (List.not_mem_nil x)
      · simp [runSteps, hs]
    · have he2 : (runSteps rest).2 = some e := by
        simpa [runSteps, hs] using he
      obtain ⟨pre, s2, post, h1, h2, h3, h4, h5, h6⟩ := ih he2
      refine ⟨s :: pre, s2, post, by rw [h1]; rfl, h2, h3, h4, ?_, ?_⟩
      · intro x hx
        rcases List.mem_cons.1 hx with rfl | hx
        · exact hs
        · exact h5 x hx
      · simp only [runSteps, if_neg hs, h6]
        rfl

/-- C20 as stated fails for the sample-rate request: in a world where that
request alone is refused, with `-22`, aborting at it would end the negotiation
with `-22` after six calls, but `setHardwareParams` goes on, issues the
buffer-size request and the commit, and returns `NO_ERROR`. -/
theorem hw_rate_failure_does_not_abort :
    (rateFailsWorld.snd_pcm_hw_params_set_rate_near DEFAULT_SAMPLE_RATE).1 = -22 ∧
    (runSteps (hwSteps true rateFailsWorld { defaultOutHandle with handle := some 7 })).2 =
      some (-22) ∧
    (setHardwareParams rateFailsWorld { defaultOutHandle with handle := some 7 }).status =
      NO_ERROR ∧
    Call.snd_pcm_hw_params_set_buffer_size_near (some 7) 4096 ∈
      (setHardwareParams rateFailsWorld { defaultOutHandle with handle := some 7 }).calls ∧
    Call.snd_pcm_hw_params (some 7) ∈
      (setHardwareParams rateFailsWorld { defaultOutHandle with handle := some 7 }).calls := by
  decide

theorem if_lt_eq_max (a b : Nat) : (if a < b then b else a) = max a b := by
  split
  · rw [Nat.max_def, if_pos (by omega)]
  · rw [Nat.max_def]
    split
    · omega
    · rfl

/-- C20, amended: once its parameter set is allocated, hardware negotiation
issues its parameter steps in order and aborts at the first failing step other
than the sample-rate request, whose failure is only logged, and the buffer-time
request, whose failure selects the period-time fallback: no later parameter
step is issued, the parameter set is freed and the status of the failing step
is returned; when no step aborts, the status of the commit is returned. -/
theorem hw_aborts_at_first_failure (w : World) (h : alsa_handle_t)
    (hmalloc : ¬ w.snd_pcm_hw_params_malloc < 0) :
    (setHardwareParams w h).calls =
      Call.snd_pcm_hw_params_malloc :: (runSteps (hwSteps false w h)).1 ++
        [Call.snd_pcm_hw_params_free] ∧
    (setHardwareParams w h).status =
      ((runSteps (hwSteps false w h)).2).getD w.snd_pcm_hw_params ∧
    (∀ e, (runSteps (hwSteps false w h)).2 = some e →
      ∃ pre s post, hwSteps false w h = pre ++ s :: post ∧ s.aborts = true ∧ s.status = e ∧
        e < 0 ∧ (∀ x ∈ pre, ¬ (x.aborts = true ∧ x.status < 0)) ∧
        (runSteps (hwSteps false w h)).1 = (pre ++ [s]).map HwStep.call) := by
  have main : setHardwareParams w h =
      ⟨((runSteps (hwSteps false w h)).2).getD w.snd_pcm_hw_params,
        (setHardwareParams w h).handle,
        Call.snd_pcm_hw_params_malloc :: (runSteps (hwSteps false w h)).1 ++
          [Call.snd_pcm_hw_params_free]⟩ := by
    unfold setHardwareParams
    dsimp only
    rw [if_neg hmalloc]
    simp only [hwPeriodFallback, hwBufferTimeOk, hwCommit, hwDone, hwSteps, if_lt_eq_max]
    by_cases h1 : w.snd_pcm_hw_params_any < 0
    · simp [runSteps, h1]
    by_cases h2 : w.snd_pcm_hw_params_set_access < 0
    · simp [runSteps, h1, h2]
    by_cases h3 : w.snd_pcm_hw_params_set_format < 0
    · simp [runSteps, h1, h2, h3]
    by_cases h4 : w.snd_pcm_hw_params_set_channels < 0
    · simp [runSteps, h1, h2, h3, h4]
    by_cases h5 : (w.snd_pcm_hw_params_set_buffer_size_near h.bufferSize).1 < 0
    · simp [runSteps, h1, h2, h3, h4, h5]
    by_cases h6 : (w.snd_pcm_hw_params_set_buffer_time_near h.latency).1 < 0
    · by_cases h7 : (w.snd_pcm_hw_params_set_period_time_near
          ((w.snd_pcm_hw_params_set_buffer_time_near h.latency).2 / 4)).1 < 0
      · simp [runSteps, h1, h2, h3, h4, h5, h6, h7]
      by_cases h8 : w.snd_pcm_hw_params_get_period_size.1 < 0
      · simp [runSteps, h1, h2, h3, h4, h5, h6, h7, h8]
      by_cases h9 : (w.snd_pcm_hw_params_set_buffer_size_near_2
          (max (w.snd_pcm_hw_params_get_period_size.2 * 4 % 2 ^ WORD_BITS) h.bufferSize)).1 < 0
      · simp [runSteps, h1, h2, h3, h4, h5, h6, h7, h8, h9]
      by_cases h10 : w.snd_pcm_hw_params < 0
      · simp [runSteps, h1, h2, h3, h4, h5, h6, h7, h8, h9, h10]
      · simp [runSteps, h1, h2, h3, h4, h5, h6, h7, h8, h9, h10]
    · by_cases h7 : w.snd_pcm_hw_params_get_buffer_size.1 < 0
      · simp [runSteps, h1, h2, h3, h4, h5, h6, h7]
      by_cases h8 : w.snd_pcm_hw_params_get_buffer_time.1 < 0
      · simp [runSteps, h1, h2, h3, h4, h5, h6, h7, h8]
      by_cases h9 : (w.snd_pcm_hw_params_set_period_time_near
          (w.snd_pcm_hw_params_get_buffer_time.2 / 4)).1 < 0
      · simp [runSteps, h1, h2, h3, h4, h5, h6, h7, h8, h9]
      by_cases h10 : w.snd_pcm_hw_params < 0
      · simp [runSteps, h1, h2, h3, h4, h5, h6, h7, h8, h9, h10]
      · simp [runSteps, h1, h2, h3, h4, h5, h6, h7, h8, h9, h10]
  refine ⟨?_, ?_, fun e he => runSteps_stops_at_first_failure _ e he⟩
  · rw [main]
  · rw [main]

theorem hw_aborts_at_first_failure_witness :
    (setHardwareParams channelsFailWorld { defaultOutHandle with handle := some 7 }).status
      = -22 ∧
    (setHardwareParams channelsFailWorld { defaultOutHandle with handle := some 7 }).calls =
      [ Call.snd_pcm_hw_params_malloc,
        Call.snd_pcm_hw_params_any (some 7),
        Call.snd_pcm_hw_params_set_access (some 7),
        Call.snd_pcm_hw_params_set_format (some 7) 2,
        Call.snd_pcm_hw_params_set_channels (some 7) 2,
        Call.snd_pcm_hw_params_free ] :=
  have h := hw_aborts_at_first_failure channelsFailWorld
    { defaultOutHandle with handle := some 7 } (by decide)
  ⟨h.2.1.trans (by decide), h.1.trans (by decide)⟩

/-! ## Buffer and period derivation in hardware negotiation (C21) -/

/-- Hardware negotiation after a refused buffer-time request, up to the second
buffer-size request. -/
theorem setHardwareParams_fallback (w : World) (h : alsa_handle_t)
    (hreach : w.reachesBufferTime h)
    (hbt : (w.snd_pcm_hw_params_set_buffer_time_near h.latency).1 < 0) :
    (∃ tail, (setHardwareParams w h).calls = bufferTimePrefix h ++
      Call.snd_pcm_hw_params_set_period_time_near h.handle
        ((w.snd_pcm_hw_params_set_buffer_time_near h.latency).2 / 4) :: tail) ∧
    (¬ (w.snd_pcm_hw_params_set_period_time_near
          ((w.snd_pcm_hw_params_set_buffer_time_near h.latency).2 / 4)).1 < 0 →
      ¬ w.snd_pcm_hw_params_get_period_size.1 < 0 →
      ∃ tail, (setHardwareParams w h).calls = bufferTimePrefix h ++
        [ Call.snd_pcm_hw_params_set_period_time_near h.handle
            ((w.snd_pcm_hw_params_set_buffer_time_near h.latency).2 / 4),
          Call.snd_pcm_hw_params_get_period_size,
          Call.snd_pcm_hw_params_set_buffer_size_near h.handle
            (max (w.snd_pcm_hw_params_get_period_size.2 * 4 % 2 ^ WORD_BITS) h.bufferSize) ] ++
        tail) := by
  obtain ⟨h0, h1, h2, h3, h4, h5⟩ := hreach
  have shape : setHardwareParams w h = hwPeriodFallback w h
      (w.snd_pcm_hw_params_set_buffer_time_near h.latency).2 (bufferTimePrefix h) := by
    unfold setHardwareParams
    dsimp only
    rw [if_neg h0, if_neg h1, if_neg h2, if_neg h3, if_neg h4, if_neg h5, if_pos hbt]
    rfl
  rw [shape]
  unfold hwPeriodFallback
  dsimp only
  simp only [if_lt_eq_max]
  refine ⟨?_, ?_⟩
  · split
    · exact ⟨[Call.snd_pcm_hw_params_free], by simp [hwDone]⟩
    · split
      · exact ⟨_, by simp [hwDone]; rfl⟩
      · split
        · exact ⟨_, by simp [hwDone]; rfl⟩
        · exact ⟨_, by simp [hwCommit, hwDone]; rfl⟩
  · intro hp hg
    rw [if_neg hp, if_neg hg]
    split
    · exact ⟨[Call.snd_pcm_hw_params_free], by simp [hwDone]⟩
    · exact ⟨_, by simp [hwCommit, hwDone]; rfl⟩

/-- Hardware negotiation after a granted buffer-time request and successful
read-backs. -/
theorem setHardwareParams_buffer_time_ok (w : World) (h : alsa_handle_t)
    (hreach : w.reachesBufferTime h)
    (hbt : ¬ (w.snd_pcm_hw_params_set_buffer_time_near h.latency).1 < 0)
    (hbs : ¬ w.snd_pcm_hw_params_get_buffer_size.1 < 0)
    (hgt : ¬ w.snd_pcm_hw_params_get_buffer_time.1 < 0) :
    (∃ tail, (setHardwareParams w h).calls = bufferTimePrefix h ++
      [ Call.snd_pcm_hw_params_get_buffer_size,
        Call.snd_pcm_hw_params_get_buffer_time,
        Call.snd_pcm_hw_params_set_period_time_near h.handle
          (w.snd_pcm_hw_params_get_buffer_time.2 / 4) ] ++ tail) ∧
    (¬ (w.snd_pcm_hw_params_set_period_time_near
          (w.snd_pcm_hw_params_get_buffer_time.2 / 4)).1 < 0 →
      (setHardwareParams w h).status = w.snd_pcm_hw_params ∧
      (setHardwareParams w h).handle =
        { h with bufferSize := w.snd_pcm_hw_params_get_buffer_size.2,
                 latency := w.snd_pcm_hw_params_get_buffer_time.2 }) := by
  obtain ⟨h0, h1, h2, h3, h4, h5⟩ := hreach
  have shape : setHardwareParams w h = hwBufferTimeOk w h (bufferTimePrefix h) := by
    unfold setHardwareParams
    dsimp only
    rw [if_neg h0, if_neg h1, if_neg h2, if_neg h3, if_neg h4, if_neg h5, if_neg hbt]
    rfl
  rw [shape]
  unfold hwBufferTimeOk
  dsimp only
  rw [if_neg hbs, if_neg hgt]
  refine ⟨?_, ?_⟩
  · split
    · exact ⟨[Call.snd_pcm_hw_params_free], by simp [hwDone]⟩
    · exact ⟨_, by simp [hwCommit, hwDone]; rfl⟩
  · intro hp
    rw [if_neg hp]
    exact ⟨rfl, rfl⟩

/-- C21: in hardware negotiation that reaches the buffer-time request.  When
that request fails, the period time requested next is `latency / 4` (integer
division), `latency` being the variable the request was given: the handle's
latency when the refused request leaves it untouched.  For every period size
`p` then read back, the buffer size requested next is the larger of `4 * p`,
as the machine computes it on a word of `WORD_BITS` bits, and the handle's
desired buffer size; for every `p < 2 ^ 30` that is the larger of `4 * p` and
the desired size as natural numbers.  When the buffer-time request succeeds and
the sizes are read back, the period time requested is the buffer time read back
divided by `4`, and once that request is granted the handle's `bufferSize` and
`latency` are the buffer size and buffer time read back and the status is the
one of the commit. -/
theorem hw_latency_derivation (w : World) (h : alsa_handle_t)
    (hreach : w.reachesBufferTime h) :
    ((w.snd_pcm_hw_params_set_buffer_time_near h.latency).1 < 0 →
      (∃ tail, (setHardwareParams w h).calls = bufferTimePrefix h ++
        Call.snd_pcm_hw_params_set_period_time_near h.handle
          ((w.snd_pcm_hw_params_set_buffer_time_near h.latency).2 / 4) :: tail) ∧
      ((w.snd_pcm_hw_params_set_buffer_time_near h.latency).2 = h.latency →
        ∃ tail, (setHardwareParams w h).calls = bufferTimePrefix h ++
          Call.snd_pcm_hw_params_set_period_time_near h.handle (h.latency / 4) :: tail) ∧
      (¬ (w.snd_pcm_hw_params_set_period_time_near
            ((w.snd_pcm_hw_params_set_buffer_time_near h.latency).2 / 4)).1 < 0 →
        ¬ w.snd_pcm_hw_params_get_period_size.1 < 0 →
        (∃ tail, (setHardwareParams w h).calls = bufferTimePrefix h ++
          [ Call.snd_pcm_hw_params_set_period_time_near h.handle
              ((w.snd_pcm_hw_params_set_buffer_time_near h.latency).2 / 4),
            Call.snd_pcm_hw_params_get_period_size,
            Call.snd_pcm_hw_params_set_buffer_size_near h.handle
              (max (w.snd_pcm_hw_params_get_period_size.2 * 4 % 2 ^ WORD_BITS)
                h.bufferSize) ] ++ tail) ∧
        (w.snd_pcm_hw_params_get_period_size.2 < 2 ^ 30 →
          max (w.snd_pcm_hw_params_get_period_size.2 * 4 % 2 ^ WORD_BITS) h.bufferSize =
            max (4 * w.snd_pcm_hw_params_get_period_size.2) h.bufferSize))) ∧
    (¬ (w.snd_pcm_hw_params_set_buffer_time_near h.latency).1 < 0 →
      ¬ w.snd_pcm_hw_params_get_buffer_size.1 < 0 →
      ¬ w.snd_pcm_hw_params_get_buffer_time.1 < 0 →
      (∃ tail, (setHardwareParams w h).calls = bufferTimePrefix h ++
        [ Call.snd_pcm_hw_params_get_buffer_size,
          Call.snd_pcm_hw_params_get_buffer_time,
          Call.snd_pcm_hw_params_set_period_time_near h.handle
            (w.snd_pcm_hw_params_get_buffer_time.2 / 4) ] ++ tail) ∧
      (¬ (w.snd_pcm_hw_params_set_period_time_near
            (w.snd_pcm_hw_params_get_buffer_time.2 / 4)).1 < 0 →
        (setHardwareParams w h).status = w.snd_pcm_hw_params ∧
        (setHardwareParams w h).handle.bufferSize = w.snd_pcm_hw_params_get_buffer_size.2 ∧
        (setHardwareParams w h).handle.latency = w.snd_pcm_hw_params_get_buffer_time.2)) := by
  refine ⟨fun hbt => ?_, fun hbt hbs hgt => ?_⟩
  · obtain ⟨hA, hB⟩ := setHardwareParams_fallback w h hreach hbt
    refine ⟨hA, fun hsame => ?_, fun hp hg => ⟨hB hp hg, fun hsmall => ?_⟩⟩
    · rw [hsame] at hA
      exact hA
    · have h32 : (2 : Nat) ^ WORD_BITS = 4294967296 := by decide
      have h30 : (2 : Nat) ^ 30 = 1073741824 := by norm_num
      rw [h30] at hsmall
      rw [h32, Nat.mod_eq_of_lt (by omega), Nat.mul_comm]
  · obtain ⟨hA, hB⟩ := setHardwareParams_buffer_time_ok w h hreach hbt hbs hgt
    refine ⟨hA, fun hp => ?_⟩
    obtain ⟨hs, hh⟩ := hB hp
    exact ⟨hs, by rw [hh], by rw [hh]⟩

theorem hw_latency_derivation_witness :
    (∃ tail, (setHardwareParams bufferTimeFailsWorld
        { defaultOutHandle with handle := some 7 }).calls =
      bufferTimePrefix { defaultOutHandle with handle := some 7 } ++
        Call.snd_pcm_hw_params_set_period_time_near (some 7) 50000 :: tail) ∧
    (∃ tail, (setHardwareParams bufferTimeFailsWorld
        { defaultInHandle with handle := some 7 }).calls =
      bufferTimePrefix { defaultInHandle with handle := some 7 } ++
        [ Call.snd_pcm_hw_params_set_period_time_near (some 7) 62500,
          Call.snd_pcm_hw_params_get_period_size,
          Call.snd_pcm_hw_params_set_buffer_size_near (some 7) 4096 ] ++ tail) ∧
    (setHardwareParams calmWorld { defaultOutHandle with handle := some 7 }).handle.bufferSize
      = 4096 ∧
    (setHardwareParams calmWorld { defaultOutHandle with handle := some 7 }).handle.latency
      = 92879 :=
  have hf := hw_latency_derivation bufferTimeFailsWorld
    { defaultOutHandle with handle := some 7 }
    ⟨by decide, by decide, by decide, by decide, by decide, by decide⟩
  have hi := hw_latency_derivation bufferTimeFailsWorld
    { defaultInHandle with handle := some 7 }
    ⟨by decide, by decide, by decide, by decide, by decide, by decide⟩
  have hs := hw_latency_derivation calmWorld { defaultOutHandle with handle := some 7 }
    ⟨by decide, by decide, by decide, by decide, by decide, by decide⟩
  ⟨(hf.1 (by decide)).2.1 rfl,
   ((hi.1 (by decide)).2.2 (by decide) (by decide)).1,
   ((hs.2 (by decide) (by decide) (by decide)).2 (by decide)).2.1,
   ((hs.2 (by decide) (by decide) (by decide)).2 (by decide)).2.2⟩

/-! ## Control names written by the default strategy (C22) -/

theorem writtenNames_append (a b : List Call) :
    writtenNames (a ++ b) = writtenNames a ++ writtenNames b := by
  simp [writtenNames]

theorem speakerControls_names (d : Nat) :
    writtenNames (speakerControls d) = outputLegNames.take 6 := by
  unfold speakerControls; split <;> rfl

theorem headsetControls_names (d : Nat) :
    writtenNames (headsetControls d) = (outputLegNames.drop 6).take 3 := by
  unfold headsetControls; split <;> rfl

theorem earpieceControls_names (d : Nat) :
    writtenNames (earpieceControls d) = (outputLegNames.drop 9).take 2 := by
  unfold earpieceControls; split <;> rfl

theorem downlinkControls_names (d : Nat) :
    writtenNames (downlinkControls d) = outputLegNames.drop 11 := by
  unfold downlinkControls; split <;> rfl

theorem micControls_names (d : Nat) :
    writtenNames (micControls d) = captureControlNames := by
  unfold micControls; split
  · rfl
  · split <;> rfl

theorem uplinkControls_names (d : Nat) :
    writtenNames (uplinkControls d) = uplinkControlNames := by
  unfold uplinkControls; split <;> rfl

/-- The names written by the default strategy, leg by leg. -/
theorem setDefaultControls_names (w : World) (d : Nat) (m : Int) :
    writtenNames (setDefaultControls w d m) =
      (if d &&& 0x0000FFFF ≠ 0 then outputLegNames else []) ++
      (if d >>> 16 ≠ 0 then inputLegNames else []) := by
  have hmodem : writtenNames
      (if w.AUDIO_MODEM_TI = true then [Call.voiceCallControls d m] else []) = [] := by
    cases w.AUDIO_MODEM_TI <;> rfl
  have hsplit : outputLegNames =
      outputLegNames.take 6 ++ (outputLegNames.drop 6).take 3 ++
        (outputLegNames.drop 9).take 2 ++ outputLegNames.drop 11 := by
    decide
  unfold setDefaultControls
  simp only [applyControls_snd]
  rw [writtenNames_append, writtenNames_append, hmodem, List.nil_append]
  congr 1
  · split
    · rw [writtenNames_append, writtenNames_append, writtenNames_append,
        speakerControls_names, headsetControls_names, earpieceControls_names,
        downlinkControls_names]
      exact hsplit.symm
    · rfl
  · split
    · rw [writtenNames_append, micControls_names, uplinkControls_names]
      rfl
    · rfl

/-- C22: the control names the default strategy writes are the 22 names of the
output leg when the mask has a bit in the low 16 bits, followed by the 12 names
of the input leg when it has a bit in the high 16 bits: nothing for the empty
mask, both lists for a mixed mask.  Every block writes the same names in the
same order whichever of its branches is taken, and no name is written twice in
one call. -/
theorem default_strategy_names (w : World) (devices : Nat) (mode : Int) :
    writtenNames (setDefaultControls w devices mode) =
      (if devices &&& 0x0000FFFF ≠ 0 then outputLegNames else []) ++
      (if devices >>> 16 ≠ 0 then inputLegNames else []) ∧
    outputLegNames.length = 22 ∧ inputLegNames.length = 12 ∧
    (writtenNames (setDefaultControls w devices mode)).Nodup ∧
    writtenNames (setDefaultControls w 0 mode) = [] ∧
    writtenNames (setDefaultControls w
        (AudioSystem.DEVICE_OUT_SPEAKER ||| AudioSystem.DEVICE_IN_BUILTIN_MIC) mode) =
      outputLegNames ++ inputLegNames ∧
    (∀ d2 : Nat,
      writtenNames (speakerControls devices) = writtenNames (speakerControls d2) ∧
      writtenNames (headsetControls devices) = writtenNames (headsetControls d2) ∧
      writtenNames (earpieceControls devices) = writtenNames (earpieceControls d2) ∧
      writtenNames (downlinkControls devices) = writtenNames (downlinkControls d2) ∧
      writtenNames (micControls devices) = writtenNames (micControls d2) ∧
      writtenNames (uplinkControls devices) = writtenNames (uplinkControls d2)) := by
  have hall : (outputLegNames ++ inputLegNames).Nodup := by decide
  refine ⟨setDefaultControls_names w devices mode, rfl, rfl, ?_, ?_, ?_, fun d2 => ?_⟩
  · rw [setDefaultControls_names]
    split
    · split
      · exact hall
      · rw [List.append_nil]; exact (List.nodup_append.1 hall).1
    · split
      · rw [List.nil_append]; exact (List.nodup_append.1 hall).2.1
      · exact List.nodup_nil
  · rw [setDefaultControls_names]
    rfl
  · rw [setDefaultControls_names]
    rfl
  · simp only [speakerControls_names, headsetControls_names, earpieceControls_names,
      downlinkControls_names, micControls_names, uplinkControls_names, and_self]

/-! ## Routing after a failed open or negotiation (C23, C24) -/

/-- C23: built without the voice modem, when `s_route` takes its full-reopen
branch for a non-empty mask, the transport opens and negotiation fails, then
`s_route` returns the error of the negotiation and leaves the handle open and
routed to the requested devices and mode; a route call repeating the arguments
returns `NO_ERROR`, hands the handle back unchanged and makes no call, in any
world: the failed negotiation is not tried again. -/
theorem failed_negotiation_not_retried (w w2 : World) (h : alsa_handle_t) (d : Nat) (m : Int)
    (hmodem : w.AUDIO_MODEM_TI = false) (hd : d ≠ 0)
    (hbranch : h.handle = none ∨ (h.devices &&& d = 0 ∧ ¬ (h.curDev = d ∧ h.curMode = m)))
    (hopen : ¬ (w.snd_pcm_open (deviceName h d m) (direction h) 0).1 < 0)
    (hfail : (s_open w h d m).status ≠ NO_ERROR) :
    (s_route w h d m).status = (s_open w h d m).status ∧
    (s_route w h d m).status =
      (if (setHardwareParams w (openedHandle h d m
            (some (w.snd_pcm_open (deviceName h d m) (direction h) 0).2))).status = NO_ERROR then
        (setSoftwareParams w (setHardwareParams w (openedHandle h d m
          (some (w.snd_pcm_open (deviceName h d m) (direction h) 0).2))).handle).status
       else
        (setHardwareParams w (openedHandle h d m
          (some (w.snd_pcm_open (deviceName h d m) (direction h) 0).2))).status) ∧
    (s_route w h d m).status ≠ NO_ERROR ∧
    (s_route w h d m).handle.handle ≠ none ∧
    (s_route w h d m).handle.curDev = d ∧
    (s_route w h d m).handle.curMode = m ∧
    s_route w2 (s_route w h d m).handle d m = ⟨NO_ERROR, (s_route w h d m).handle, []⟩ := by
  have hr : s_route w h d m = s_open w h d m := by
    rw [s_route_reopen w h d m hd hbranch, if_neg (by simp [hmodem])]
  obtain ⟨hcd, hcm, hp⟩ := s_open_cur w h d m
  have hopened : (s_open w h d m).handle.handle ≠ none := hp.2 hopen
  refine ⟨by rw [hr], ?_, by rw [hr]; exact hfail, by rw [hr]; exact hopened,
    by rw [hr]; exact hcd, by rw [hr]; exact hcm, ?_⟩
  · rw [hr, s_open_eq, if_neg hopen]
    split <;> rfl
  · rw [hr]
    unfold s_route
    rw [if_neg hd, if_pos ⟨hopened, hcd, hcm⟩]

theorem failed_negotiation_not_retried_witness :
    (s_route channelsFailWorld defaultOutHandle 2 0).status = -22 ∧
    (s_route channelsFailWorld defaultOutHandle 2 0).handle.handle ≠ none ∧
    s_route calmWorld (s_route channelsFailWorld defaultOutHandle 2 0).handle 2 0 =
      ⟨NO_ERROR, (s_route channelsFailWorld defaultOutHandle 2 0).handle, []⟩ :=
  have h := failed_negotiation_not_retried channelsFailWorld calmWorld defaultOutHandle 2 0
    rfl (by decide) (Or.inl rfl) (by decide) (by decide)
  ⟨h.1.trans (by decide), h.2.2.2.1, h.2.2.2.2.2.2⟩

/-- C24: for a non-empty mask, whatever the handle, the mode and the answers of
the collaborators, `s_route` leaves `curDev` and `curMode` at the requested
values, whatever status it returns; in particular when it takes its full-reopen
branch and the transport fails to open, the handle leaves closed (null transport
pointer) with `curDev` at the requested non-zero mask and `curMode` at the
requested mode. -/
theorem route_always_sets_current (w : World) (h : alsa_handle_t) (d : Nat) (m : Int)
    (hd : d ≠ 0) :
    (s_route w h d m).handle.curDev = d ∧
    (s_route w h d m).handle.curMode = m ∧
    ((h.handle = none ∨ (h.devices &&& d = 0 ∧ ¬ (h.curDev = d ∧ h.curMode = m))) →
      (w.snd_pcm_open (deviceName h d m) (direction h) 0).1 < 0 →
      (s_route w h d m).handle.handle = none ∧
      (s_route w h d m).handle.curDev ≠ 0 ∧
      (w.AUDIO_MODEM_TI = false → (s_route w h d m).status = NO_INIT)) := by
  obtain ⟨hcd, hcm, hp⟩ := s_open_cur w h d m
  have hcur : (s_route w h d m).handle.curDev = d ∧ (s_route w h d m).handle.curMode = m := by
    unfold s_route
    rw [if_neg hd]
    split
    · rename_i hc
      exact ⟨hc.2.1, hc.2.2⟩
    · split
      · exact ⟨rfl, rfl⟩
      · split
        · exact ⟨hcd, hcm⟩
        · exact ⟨hcd, hcm⟩
  refine ⟨hcur.1, hcur.2, fun hbranch hfail => ⟨?_, by rw [hcur.1]; exact hd, fun hmodem => ?_⟩⟩
  · have hnone : (s_open w h d m).handle.handle = none := by
      by_contra hne
      exact (hp.1 hne) hfail
    rw [s_route_reopen w h d m hd hbranch]
    split
    · exact hnone
    · exact hnone
  · rw [s_route_reopen w h d m hd hbranch, if_neg (by simp [hmodem])]
    exact s_open_status_of_open_failed w h d m hfail

theorem route_always_sets_current_witness :
    (s_route openFailsWorld defaultOutHandle 2 0).handle.curDev = 2 ∧
    (s_route openFailsWorld defaultOutHandle 2 0).handle.curMode = 0 ∧
    (s_route openFailsWorld defaultOutHandle 2 0).handle.handle = none ∧
    (s_route openFailsWorld defaultOutHandle 2 0).status = NO_INIT :=
  have h := route_always_sets_current openFailsWorld defaultOutHandle 2 0 (by decide)
  ⟨h.1, h.2.1, (h.2.2 (Or.inl rfl) (by decide)).1, (h.2.2 (Or.inl rfl) (by decide)).2.2 rfl⟩

end Omap4
